import Mathlib

/-!
Formal model of the NES20Tool ROM/FDS codecs and matching engine.

The definitions below are a shallow embedding of the Go sources:
NESTool/NESROM.go (iNES / NES 2.0 header codec), FDSTool/FDSTool.go
(FDS disk codec) and ProcessingTools (matching and transplant engine).
Machine integers (uint8/uint16/uint32/uint64) are modeled as Nat with an
explicit reduction modulo 2^w at the operations where Go can overflow.
Byte slices are modeled as List Nat (each element intended below 256);
a nil slice is distinguished from an empty one with Option where the
source distinguishes them.  Go run-time panics (out-of-range slice
indexing) and returned errors both abort an operation; each is modeled
as an Except error.  The external hash routines (crc32.ChecksumIEEE,
md5.Sum, sha1.Sum, sha256.Sum256) are parameters of the model: no claim
depends on the value of a digest, only on how digests are stored,
copied and compared.
-/

namespace NESTool

/-- External hash functions used by the Go code (crypto/md5, crypto/sha1,
crypto/sha256, hash/crc32).  The model is parameterized over them. -/
structure HashModel where
  crc32 : List Nat → Nat := fun _ => 0
  md5 : List Nat → List Nat := fun _ => []
  sha1 : List Nat → List Nat := fun _ => []
  sha256 : List Nat → List Nat := fun _ => []

/-- A concrete instance of the hash parameters, used to evaluate the model
on concrete inputs (no claim depends on digest values). -/
def defaultHashes : HashModel := {}

deriving instance DecidableEq for Except

def NES_HEADER_MAGIC : List Nat := [0x4E, 0x45, 0x53, 0x1A]

def NES_20_AND_MASK : Nat := 0x08

def NES_20_OR_MASK : Nat := 0xFB

def ROM_TYPE_PRGROM : Nat := 0

def ROM_TYPE_CHRROM : Nat := 1

/-- NES20Header from NESTool/NESROM.go.  Field defaults give the Go zero
value of the struct.  Digest fields hold raw byte lists; uint16/uint32
sums are plain Nat. -/
structure NES20Header where
  PRGROMSize : Nat := 0
  PRGROMCalculatedSize : Nat := 0
  PRGROMSum16 : Nat := 0
  PRGROMCRC32 : Nat := 0
  PRGROMMD5 : List Nat := []
  PRGROMSHA1 : List Nat := []
  PRGROMSHA256 : List Nat := []
  PRGROMSizeExponent : Nat := 0
  PRGROMSizeMultiplier : Nat := 0
  CHRROMSize : Nat := 0
  CHRROMCalculatedSize : Nat := 0
  CHRROMSum16 : Nat := 0
  CHRROMCRC32 : Nat := 0
  CHRROMMD5 : List Nat := []
  CHRROMSHA1 : List Nat := []
  CHRROMSHA256 : List Nat := []
  CHRROMSizeExponent : Nat := 0
  CHRROMSizeMultiplier : Nat := 0
  MiscROMCalculatedSize : Nat := 0
  MiscROMSum16 : Nat := 0
  MiscROMCRC32 : Nat := 0
  MiscROMMD5 : List Nat := []
  MiscROMSHA1 : List Nat := []
  MiscROMSHA256 : List Nat := []
  TrainerCalculatedSize : Nat := 0
  TrainerSum16 : Nat := 0
  TrainerCRC32 : Nat := 0
  TrainerMD5 : List Nat := []
  TrainerSHA1 : List Nat := []
  TrainerSHA256 : List Nat := []
  PRGRAMSize : Nat := 0
  PRGNVRAMSize : Nat := 0
  CHRRAMSize : Nat := 0
  CHRNVRAMSize : Nat := 0
  MirroringType : Bool := false
  Battery : Bool := false
  Trainer : Bool := false
  FourScreen : Bool := false
  ConsoleType : Nat := 0
  Mapper : Nat := 0
  SubMapper : Nat := 0
  CPUPPUTiming : Nat := 0
  VsHardwareType : Nat := 0
  VsPPUType : Nat := 0
  ExtendedConsoleType : Nat := 0
  MiscROMs : Nat := 0
  DefaultExpansion : Nat := 0
deriving DecidableEq

/-- NES10Header from NESTool/NESROM.go. -/
structure NES10Header where
  PRGROMSize : Nat := 0
  PRGROMCalculatedSize : Nat := 0
  PRGROMSum16 : Nat := 0
  PRGROMCRC32 : Nat := 0
  PRGROMMD5 : List Nat := []
  PRGROMSHA1 : List Nat := []
  PRGROMSHA256 : List Nat := []
  CHRROMSize : Nat := 0
  CHRROMCalculatedSize : Nat := 0
  CHRROMSum16 : Nat := 0
  CHRROMCRC32 : Nat := 0
  CHRROMMD5 : List Nat := []
  CHRROMSHA1 : List Nat := []
  CHRROMSHA256 : List Nat := []
  TrainerCalculatedSize : Nat := 0
  TrainerSum16 : Nat := 0
  TrainerCRC32 : Nat := 0
  TrainerMD5 : List Nat := []
  TrainerSHA1 : List Nat := []
  TrainerSHA256 : List Nat := []
  MirroringType : Bool := false
  Battery : Bool := false
  Trainer : Bool := false
  FourScreen : Bool := false
  Mapper : Nat := 0
  VsUnisystem : Bool := false
  PlayChoice10 : Bool := false
  PRGRAMSize : Nat := 0
  TVSystem : Bool := false
deriving DecidableEq

/-- NESROM from NESTool/NESROM.go.  Pointer fields become Option; byte
slices that the source tests against nil become Option (List Nat). -/
structure NESROM where
  Name : String := ""
  Filename : String := ""
  RelativePath : String := ""
  Size : Nat := 0
  CRC32 : Nat := 0
  MD5 : List Nat := []
  SHA1 : List Nat := []
  SHA256 : List Nat := []
  Header20 : Option NES20Header := none
  Header10 : Option NES10Header := none
  ROMData : Option (List Nat) := none
  TrainerData : Option (List Nat) := none
  PRGROMData : Option (List Nat) := none
  CHRROMData : Option (List Nat) := none
  MiscROMData : Option (List Nat) := none
  HeaderData : Option (List Nat) := none
deriving DecidableEq

/-- The shift loop of FactorRomSize: halve until the value is at most 1,
counting the steps.  The Go loop runs on a uint64, so 64 iterations always
suffice; the fuel argument makes the recursion structural. -/
def countShifts : Nat → Nat → Nat
  | 0, _ => 0
  | fuel + 1, tempSize => if tempSize > 1 then countShifts fuel (tempSize / 2) + 1 else 0

/-- FactorRomSize from NESTool/NESROM.go: factor a total byte size into the
NES 2.0 size notations, preferring the linear form.  The linear count is a
uint16 in Go, hence the reduction modulo 65536.  (With a romType other than
0 or 1 the Go code divides by zero; the claims only use types 0 and 1.) -/
def FactorRomSize (romSize romType : Nat) : Nat × Nat × Nat :=
  if romSize = 0 then (0, 0, 0)
  else
    let blockSize : Nat :=
      if romType = ROM_TYPE_PRGROM then 16 * 1024
      else if romType = ROM_TYPE_CHRROM then 8 * 1024
      else 0
    if romSize % blockSize = 0 then ((romSize / blockSize) % 65536, 0, 0)
    else
      let sizeMultiplier : Nat :=
        if romSize % 3 = 0 then 3
        else if romSize % 5 = 0 then 5
        else if romSize % 7 = 0 then 7
        else 1
      let tempSize := if sizeMultiplier > 0 then romSize / sizeMultiplier else romSize
      let sizeMultiplier := (sizeMultiplier - 1) / 2
      let sizeExponent := countShifts 64 tempSize
      (0, sizeExponent, sizeMultiplier)

end NESTool

namespace NESTool

/-- C3, claim as stated, fails: 49152 = 3 * 2 ^ 14 is in the quantified size
set, but since it is a multiple of the 16384-byte PRG block, FactorRomSize
returns the linear encoding (3, 0, 0), whose exponent/multiplier components
encode 1, not 49152. -/
theorem factorRomSize_set_counterexample :
    49152 = 3 * 2 ^ 14 ∧ FactorRomSize 49152 ROM_TYPE_PRGROM = (3, 0, 0) ∧
      (1 <<< (FactorRomSize 49152 ROM_TYPE_PRGROM).2.1) *
        (2 * (FactorRomSize 49152 ROM_TYPE_PRGROM).2.2 + 1) ≠ 49152 := by
  decide

set_option maxHeartbeats 1000000 in
/-- C3 amended: for every size N = m * 2 ^ k with m in {1, 3, 5, 7} and
k at most 40 that is NOT a multiple of the block size (16384 for PRG,
8192 for CHR), FactorRomSize returns an exponent/multiplier pair with
(1 <<< exponent) * (2 * multiplier + 1) = N.  (Block multiples take the
linear branch instead, as the counterexample shows.) -/
theorem factorRomSize_exponent_correct :
    ∀ m ∈ [1, 3, 5, 7], ∀ k < 41, ∀ t ∈ [ROM_TYPE_PRGROM, ROM_TYPE_CHRROM],
      (m * 2 ^ k) % (if t = ROM_TYPE_PRGROM then 16384 else 8192) ≠ 0 →
      (1 <<< (FactorRomSize (m * 2 ^ k) t).2.1) *
        (2 * (FactorRomSize (m * 2 ^ k) t).2.2 + 1) = m * 2 ^ k := by
  decide

/-- Witness for factorRomSize_exponent_correct at m = 3, k = 2, PRG. -/
theorem factorRomSize_exponent_correct_witness :
    (1 <<< (FactorRomSize (3 * 2 ^ 2) ROM_TYPE_PRGROM).2.1) *
      (2 * (FactorRomSize (3 * 2 ^ 2) ROM_TYPE_PRGROM).2.2 + 1) = 3 * 2 ^ 2 :=
  factorRomSize_exponent_correct 3 (by decide) 2 (by decide) ROM_TYPE_PRGROM
    (by decide) (by decide)

end NESTool

namespace NESTool

/-- Byte access into a file: Go indexing on a slice whose bounds have been
checked by the caller (out-of-range access gives 0 here; every use below is
guarded by a length check, as in Go). -/
def byteAt (F : List Nat) (i : Nat) : Nat := F.getD i 0

/-- getStrippedRom from NESTool/NESROM.go: strip the 16-byte header (and any
512-byte trainer) from the file.  Returns (rom bytes, header bytes, trainer
bytes, error); on error the first component is the whole input, as in Go.
DecodeNESROM discards the error component (the Go code assigns it to the
blank identifier). -/
def getStrippedRom (inputFile : List Nat) :
    List Nat × Option (List Nat) × Option (List Nat) × Option String :=
  let fileSize := inputFile.length
  if fileSize < 16 then
    (inputFile, none, none, some "File too small to be a headered NES ROM.")
  else if inputFile.take 4 ≠ NES_HEADER_MAGIC then
    (inputFile, none, none, some "Unable to find NES magic.")
  else if byteAt inputFile 6 &&& 0b00000100 = 0b00000100 ∧ fileSize < 528 then
    (inputFile, none, none,
      some "Header indicates trainer data, but file too small for one.")
  else if ¬(byteAt inputFile 6 &&& 0b00000100 = 0b00000100) then
    (inputFile.drop 16, some (inputFile.take 16), none, none)
  else
    (inputFile.drop 528, some (inputFile.take 16),
      some ((inputFile.take 528).drop 16), none)

/-- calculateSum16 from NESTool/NESROM.go: 16-bit modular byte sum.  The Go
sum is a uint64 cast to uint16; since 2^16 divides 2^64 this is the sum
modulo 65536. -/
def calculateSum16 (inputData : Option (List Nat)) : Except String Nat :=
  match inputData with
  | none => .error "Cannot calculate sum16 for a null segment."
  | some d => .ok ((d.foldl (· + ·) 0) % 65536)

/-- getSplitRomData from NESTool/NESROM.go: split the headerless payload into
PRG, CHR and misc segments.  The Go length guard casts the uint64 sum to int;
below 2^63 that is this comparison, and in the overflow regime the
subsequent slicing panics, which this model reports as the same error. -/
def getSplitRomData (inputData : Option (List Nat)) (prgRomSize chrRomSize : Nat) :
    Except String (List Nat × List Nat × Option (List Nat)) :=
  match inputData with
  | none => .error "Cannot extract PRGROM and/or CHRROM data from a null segment."
  | some d =>
    if d.length < prgRomSize + chrRomSize then
      .error "Invalid PRGROM and/or CHRROM size(s) detected during extraction."
    else
      .ok (d.take prgRomSize, (d.take (prgRomSize + chrRomSize)).drop prgRomSize,
        some (d.drop (prgRomSize + chrRomSize)))

/-- The NES 2.0 header-field decoding done by DecodeNESROM (NESROM.go lines
505-598), as a function of the byte accessor of the input file.  The
exponential-form size product is computed in uint64 in Go, hence % 2^64;
MiscROMCalculatedSize is filled in later by DecodeNESROM after the split. -/
def decodeNES20Header (b : Nat → Nat) (preserveTrainer : Bool) : NES20Header :=
  let prgLin := b 9 &&& 0b00001111 ≠ 0b00001111
  let chrLin := b 9 &&& 0b11110000 ≠ 0b11110000
  let trainer := if preserveTrainer then decide (b 6 &&& 0b00000100 = 0b00000100) else false
  { PRGROMSize := if prgLin then b 4 + 256 * (b 9 &&& 0b00001111) else 0
    PRGROMSizeExponent := if prgLin then 0 else (b 4 &&& 0b11111100) >>> 2
    PRGROMSizeMultiplier := if prgLin then 0 else b 4 &&& 0b00000011
    PRGROMCalculatedSize :=
      if prgLin then 16 * 1024 * (b 4 + 256 * (b 9 &&& 0b00001111))
      else ((1 <<< ((b 4 &&& 0b11111100) >>> 2)) * ((b 4 &&& 0b00000011) * 2 + 1)) % 2 ^ 64
    CHRROMSize := if chrLin then b 5 + 256 * ((b 9 &&& 0b11110000) >>> 4) else 0
    CHRROMSizeExponent := if chrLin then 0 else (b 5 &&& 0b11111100) >>> 2
    CHRROMSizeMultiplier := if chrLin then 0 else b 5 &&& 0b00000011
    CHRROMCalculatedSize :=
      if chrLin then 8 * 1024 * (b 5 + 256 * ((b 9 &&& 0b11110000) >>> 4))
      else ((1 <<< ((b 5 &&& 0b11111100) >>> 2)) * ((b 5 &&& 0b00000011) * 2 + 1)) % 2 ^ 64
    PRGRAMSize := b 10 &&& 0b00001111
    PRGNVRAMSize := (b 10 &&& 0b11110000) >>> 4
    CHRRAMSize := b 11 &&& 0b00001111
    CHRNVRAMSize := (b 11 &&& 0b11110000) >>> 4
    MirroringType := decide (b 6 &&& 0b00000001 = 0b00000001)
    Battery := decide (b 6 &&& 0b00000010 = 0b00000010)
    Trainer := trainer
    TrainerCalculatedSize := if trainer then 512 else 0
    FourScreen := decide (b 6 &&& 0b00001000 = 0b00001000)
    ConsoleType := b 7 &&& 0b00000011
    Mapper := (((b 6 &&& 0b11110000) >>> 4) ||| (b 7 &&& 0b11110000)) + 256 * (b 8 &&& 0b00001111)
    SubMapper := (b 8 &&& 0b11110000) >>> 4
    CPUPPUTiming := b 12 &&& 0b00000011
    VsHardwareType := if b 7 &&& 0b00000011 = 1 then (b 13 &&& 0b11110000) >>> 4 else 0
    VsPPUType := if b 7 &&& 0b00000011 = 1 then b 13 &&& 0b00001111 else 0
    ExtendedConsoleType := if b 7 &&& 0b00000011 = 3 then b 13 &&& 0b00001111 else 0
    MiscROMs := b 14 &&& 0b00000011
    DefaultExpansion := b 15 &&& 0b00111111 }

/-- The iNES header-field decoding done by DecodeNESROM (NESROM.go lines
600-639), as a function of the byte accessor of the input file. -/
def decodeNES10Header (b : Nat → Nat) (preserveTrainer : Bool) : NES10Header :=
  let trainer := if preserveTrainer then decide (b 6 &&& 0b00000100 = 0b00000100) else false
  { PRGROMSize := b 4
    PRGROMCalculatedSize := 16 * 1024 * b 4
    CHRROMSize := b 5
    CHRROMCalculatedSize := 8 * 1024 * b 5
    MirroringType := decide (b 6 &&& 0b00000001 = 0b00000001)
    Battery := decide (b 6 &&& 0b00000010 = 0b00000010)
    Trainer := trainer
    TrainerCalculatedSize := if trainer then 512 else 0
    FourScreen := decide (b 6 &&& 0b00001000 = 0b00001000)
    Mapper := ((b 6 &&& 0b11110000) >>> 4) ||| (b 7 &&& 0b11110000)
    VsUnisystem := decide (b 7 &&& 0b00000001 = 0b00000001)
    PlayChoice10 := decide (b 7 &&& 0b00000010 = 0b00000010)
    PRGRAMSize := b 8
    TVSystem := decide (b 9 &&& 0b00000001 = 0b00000001) }

/-- The NES 2.0 part of UpdateChecksums from NESTool/NESROM.go. -/
def updateChecksums20 (H : HashModel) (rom : NESROM) (h : NES20Header) :
    Except String NES20Header := do
  let h ← match rom.PRGROMData with
    | some d => do
      let s ← calculateSum16 (some d)
      pure { h with
        PRGROMSum16 := s
        PRGROMCRC32 := H.crc32 d
        PRGROMMD5 := H.md5 d
        PRGROMSHA1 := H.sha1 d
        PRGROMSHA256 := H.sha256 d }
    | none => pure h
  let h ← match rom.CHRROMData with
    | some d =>
      if d.length > 0 then do
        let s ← calculateSum16 (some d)
        pure { h with
          CHRROMSum16 := s
          CHRROMCRC32 := H.crc32 d
          CHRROMMD5 := H.md5 d
          CHRROMSHA1 := H.sha1 d
          CHRROMSHA256 := H.sha256 d }
      else pure h
    | none => pure h
  let h ← match rom.MiscROMData with
    | some d =>
      if d.length > 0 then do
        let s ← calculateSum16 (some d)
        pure { h with
          MiscROMSum16 := s
          MiscROMCRC32 := H.crc32 d
          MiscROMMD5 := H.md5 d
          MiscROMSHA1 := H.sha1 d
          MiscROMSHA256 := H.sha256 d }
      else pure h
    | none => pure h
  let h ← match rom.TrainerData with
    | some d =>
      if d.length > 0 then do
        let s ← calculateSum16 (some d)
        pure { h with
          TrainerSum16 := s
          TrainerCRC32 := H.crc32 d
          TrainerMD5 := H.md5 d
          TrainerSHA1 := H.sha1 d
          TrainerSHA256 := H.sha256 d }
      else pure h
    | none => pure h
  pure h

/-- The iNES part of UpdateChecksums from NESTool/NESROM.go. -/
def updateChecksums10 (H : HashModel) (rom : NESROM) (h : NES10Header) :
    Except String NES10Header := do
  let h ← match rom.PRGROMData with
    | some d => do
      let s ← calculateSum16 (some d)
      pure { h with
        PRGROMSum16 := s
        PRGROMCRC32 := H.crc32 d
        PRGROMMD5 := H.md5 d
        PRGROMSHA1 := H.sha1 d
        PRGROMSHA256 := H.sha256 d }
    | none => pure h
  let h ← match rom.CHRROMData with
    | some d =>
      if d.length > 0 then do
        let s ← calculateSum16 (some d)
        pure { h with
          CHRROMSum16 := s
          CHRROMCRC32 := H.crc32 d
          CHRROMMD5 := H.md5 d
          CHRROMSHA1 := H.sha1 d
          CHRROMSHA256 := H.sha256 d }
      else pure h
    | none => pure h
  let h ← match rom.TrainerData with
    | some d =>
      if d.length > 0 then do
        let s ← calculateSum16 (some d)
        pure { h with
          TrainerSum16 := s
          TrainerCRC32 := H.crc32 d
          TrainerMD5 := H.md5 d
          TrainerSHA1 := H.sha1 d
          TrainerSHA256 := H.sha256 d }
      else pure h
    | none => pure h
  pure h

/-- UpdateChecksums from NESTool/NESROM.go: refresh the whole-image and
per-segment hash fields from the stored byte segments. -/
def UpdateChecksums (H : HashModel) (nesRom : NESROM) : Except String NESROM := do
  let r :=
    match nesRom.ROMData with
    | some d => { nesRom with
        CRC32 := H.crc32 d
        MD5 := H.md5 d
        SHA1 := H.sha1 d
        SHA256 := H.sha256 d }
    | none => nesRom
  let r ← match r.Header20 with
    | some h => do
      let h' ← updateChecksums20 H r h
      pure { r with Header20 := some h' }
    | none => pure r
  let r ← match r.Header10 with
    | some h => do
      let h' ← updateChecksums10 H r h
      pure { r with Header10 := some h' }
    | none => pure r
  pure r

/-- DecodeNESROM from NESTool/NESROM.go: decode a byte slice into an NESROM
record.  Note that the error of getStrippedRom is discarded, exactly as in
the Go source (blank identifier on line 471). -/
def DecodeNESROM (H : HashModel) (inputFile : List Nat) (enableInes preserveTrainer : Bool)
    (relativeLocation : String) : Except String NESROM :=
  let fileSize := inputFile.length
  let (rawROMBytes, rawHeaderBytes, rawTrainerBytes, _) := getStrippedRom inputFile
  let b := byteAt inputFile
  let romData : NESROM :=
    { RelativePath := relativeLocation
      CRC32 := H.crc32 rawROMBytes
      MD5 := H.md5 rawROMBytes
      SHA1 := H.sha1 rawROMBytes
      SHA256 := H.sha256 rawROMBytes
      Size := rawROMBytes.length
      ROMData := some rawROMBytes
      HeaderData := rawHeaderBytes
      TrainerData := if preserveTrainer then rawTrainerBytes else none }
  if fileSize < 16 then
    .error "File too small to be a headered NES ROM."
  else if inputFile.take 4 ≠ NES_HEADER_MAGIC then
    .error "Unable to find NES magic."
  else if ¬(b 7 &&& NES_20_AND_MASK = NES_20_AND_MASK ∧
      b 7 ||| NES_20_OR_MASK = NES_20_OR_MASK) ∧ ¬(enableInes = true) then
    .error "Not an NES 2.0 ROM."
  else if b 7 &&& NES_20_AND_MASK = NES_20_AND_MASK ∧
      b 7 ||| NES_20_OR_MASK = NES_20_OR_MASK then
    let header20 := decodeNES20Header b preserveTrainer
    match getSplitRomData romData.ROMData header20.PRGROMCalculatedSize
        header20.CHRROMCalculatedSize with
    | .error e => .error e
    | .ok (prgRomData, chrRomData, miscRomData) =>
      let header20 := { header20 with
        MiscROMCalculatedSize :=
          match miscRomData with
          | some m => if m.length > 0 then m.length else 0
          | none => 0 }
      let romData := { romData with
        PRGROMData := some prgRomData
        CHRROMData := some chrRomData
        MiscROMData := miscRomData
        Header20 := some header20 }
      UpdateChecksums H romData
  else
    let header10 := decodeNES10Header b preserveTrainer
    match getSplitRomData romData.ROMData header10.PRGROMCalculatedSize
        header10.CHRROMCalculatedSize with
    | .error e => .error e
    | .ok (prgRomData, chrRomData, _) =>
      let romData := { romData with
        PRGROMData := some prgRomData
        CHRROMData := some chrRomData
        MiscROMData := none
        Header10 := some header10 }
      UpdateChecksums H romData

end NESTool

namespace NESTool

/-- The NES 2.0 arm of EncodeNESROMHeader from NESTool/NESROM.go: the sixteen
descriptor bytes, with each let binding tracking one mutation of the Go
headerBytes buffer.  LittleEndian.PutUint16 of a value v gives the bytes
v &&& 255 and (v >>> 8) &&& 255. -/
def encodeNES20HeaderBytes (romModel : NESROM) (h : NES20Header)
    (preserveTrainer : Bool) : List Nat :=
  let prgByte0 := h.PRGROMSize &&& 255
  let prgByte1 := (h.PRGROMSize >>> 8) &&& 255
  let b4 := if h.PRGROMSize > 0 then prgByte0
    else (h.PRGROMSizeExponent <<< 2) ||| h.PRGROMSizeMultiplier
  let b9prg := if h.PRGROMSize > 0 then 0 ||| (prgByte1 &&& 0b00001111)
    else 0 ||| 0b00001111
  let chrByte0 := h.CHRROMSize &&& 255
  let chrByte1 := (h.CHRROMSize >>> 8) &&& 255
  let b5 := if h.CHRROMSize > 0 then chrByte0
    else if h.CHRROMSizeExponent > 0 ∨ h.CHRROMSizeMultiplier > 0 then
      (h.CHRROMSizeExponent <<< 2) ||| h.CHRROMSizeMultiplier
    else 0
  let b9 := if h.CHRROMSize > 0 then b9prg ||| ((chrByte1 &&& 0b00001111) <<< 4)
    else if h.CHRROMSizeExponent > 0 ∨ h.CHRROMSizeMultiplier > 0 then b9prg ||| 0b11110000
    else b9prg &&& 0b00001111
  let mapperByte0 := h.Mapper &&& 255
  let mapperByte1 := (h.Mapper >>> 8) &&& 255
  let b6 := (if h.MirroringType then 0b00000001 else 0) |||
    (if h.Battery then 0b00000010 else 0) |||
    (if preserveTrainer ∧ h.Trainer ∧ (romModel.TrainerData.getD []).length = 512 then
      0b00000100 else 0) |||
    (if h.FourScreen then 0b00001000 else 0) |||
    ((mapperByte0 &&& 0b00001111) <<< 4)
  let b7 := (mapperByte0 &&& 0b11110000) ||| (h.ConsoleType &&& 0b00000011) ||| 0b00001000
  let b8 := (mapperByte1 &&& 0b00001111) ||| ((h.SubMapper &&& 0b00001111) <<< 4)
  let b10 := (if h.PRGRAMSize > 0 then 0 ||| h.PRGRAMSize else 0) |||
    (if h.PRGNVRAMSize > 0 then h.PRGNVRAMSize <<< 4 else 0)
  let b11 := (if h.CHRRAMSize > 0 then 0 ||| h.CHRRAMSize else 0) |||
    (if h.CHRNVRAMSize > 0 then h.CHRNVRAMSize <<< 4 else 0)
  let b12 := 0 ||| h.CPUPPUTiming
  let b13 := if h.ConsoleType = 1 then
      (0 ||| ((h.VsHardwareType &&& 0b00001111) <<< 4)) ||| (h.VsPPUType &&& 0b00001111)
    else if h.ConsoleType = 3 then 0 ||| (h.ExtendedConsoleType &&& 0b00001111)
    else 0
  let b14 := 0b00000011 &&& h.MiscROMs
  let b15 := 0b00111111 &&& h.DefaultExpansion
  NES_HEADER_MAGIC ++ [b4, b5, b6, b7, b8, b9, b10, b11, b12, b13, b14, b15]

/-- The iNES arm of EncodeNESROMHeader from NESTool/NESROM.go. -/
def encodeNES10HeaderBytes (romModel : NESROM) (h : NES10Header)
    (preserveTrainer : Bool) : List Nat :=
  let b6 := (if h.MirroringType then 0b00000001 else 0) |||
    (if h.Battery then 0b00000010 else 0) |||
    (if preserveTrainer ∧ h.Trainer ∧ (romModel.TrainerData.getD []).length = 512 then
      0b00000100 else 0) |||
    (if h.FourScreen then 0b00001000 else 0) |||
    ((h.Mapper &&& 0b00001111) <<< 4)
  let b7 := (if h.VsUnisystem then 0b00000001 else 0) |||
    (if h.PlayChoice10 then 0b00000010 else 0) |||
    (h.Mapper &&& 0b11110000)
  let b9 := if ¬(h.TVSystem = true) then 0 else 1
  NES_HEADER_MAGIC ++ [h.PRGROMSize, h.CHRROMSize, b6, b7, h.PRGRAMSize, b9, 0, 0, 0, 0, 0, 0]

/-- EncodeNESROMHeader from NESTool/NESROM.go: a NES 2.0 header wins over an
iNES header, and an iNES header is only honored when enableInes is set. -/
def EncodeNESROMHeader (romModel : NESROM) (enableInes preserveTrainer : Bool) :
    Except String (List Nat) :=
  match romModel.Header20 with
  | some h => .ok (encodeNES20HeaderBytes romModel h preserveTrainer)
  | none =>
    match romModel.Header10 with
    | some h =>
      if enableInes then .ok (encodeNES10HeaderBytes romModel h preserveTrainer)
      else .error "Unable to find valid header on ROM model."
    | none => .error "Unable to find valid header on ROM model."

/-- EncodeNESROM from NESTool/NESROM.go: header bytes, then optionally the
512-byte trainer, then the ROM payload (optionally truncated to the declared
PRG+CHR sizes).  In the iNES truncation branch the Go code dereferences
Header20 unconditionally, a nil-pointer panic when only Header10 is present;
that panic is modeled as an error (the claims all use truncateRom = false). -/
def EncodeNESROM (romModel : NESROM) (enableInes truncateRom preserveTrainer : Bool) :
    Except String (List Nat) :=
  if romModel.Header20 = none ∧ (romModel.Header10 = none ∨ ¬(enableInes = true)) then
    .error "Unable to find valid header on ROM model."
  else
    match EncodeNESROMHeader romModel enableInes preserveTrainer with
    | .error e => .error e
    | .ok headerBytes =>
      let rawRomBytesE : Except String (List Nat) :=
        match romModel.Header20 with
        | some h20 =>
          if truncateRom then
            .ok ((romModel.ROMData.getD []).take
              (h20.PRGROMCalculatedSize + h20.CHRROMCalculatedSize))
          else .ok (romModel.ROMData.getD [])
        | none =>
          match romModel.Header10 with
          | some _ =>
            if truncateRom then
              .error "invalid memory address or nil pointer dereference"
            else .ok (romModel.ROMData.getD [])
          | none => .ok (romModel.ROMData.getD [])
      match rawRomBytesE with
      | .error e => .error e
      | .ok rawRomBytes =>
        let skipTrainer : Bool :=
          !preserveTrainer ||
          (match romModel.Header20 with | some h => !h.Trainer | none => false) ||
          (match romModel.Header10 with | some h => !h.Trainer | none => false) ||
          (match romModel.TrainerData with | some t => t.length != 512 | none => false)
        if skipTrainer then
          .ok (headerBytes ++ rawRomBytes)
        else
          .ok (headerBytes ++ romModel.TrainerData.getD [] ++ rawRomBytes)

/-- Decode a file with NES 2.0 settings (iNES fallback off, trainer
preservation off) and re-encode it without truncation. -/
def decodeThenEncodeNESROM (H : HashModel) (inputFile : List Nat) :
    Except String (List Nat) :=
  match DecodeNESROM H inputFile false false "" with
  | .error e => .error e
  | .ok rom => EncodeNESROM rom false false false

example : decodeThenEncodeNESROM defaultHashes
    [78, 69, 83, 26, 0, 0, 0, 8, 0, 15, 0, 0, 0, 0, 0, 0, 7] =
    .ok [78, 69, 83, 26, 0, 0, 0, 8, 0, 15, 0, 0, 0, 0, 0, 0, 7] := by decide

end NESTool

namespace NESTool

/-- C6 (code bug): on a 16-byte trainer-flagged file, getStrippedRom does
report the truncated-trainer error, but DecodeNESROM discards it (blank
identifier, NESROM.go line 471) and returns a successfully decoded record
whose ROMData is the entire input, 16-byte header included. -/
theorem decodeNESROM_truncated_trainer_accepted :
    (getStrippedRom [78, 69, 83, 26, 0, 0, 4, 8, 0, 0, 0, 0, 0, 0, 0, 0]).2.2.2 =
      some "Header indicates trainer data, but file too small for one." ∧
    (DecodeNESROM defaultHashes [78, 69, 83, 26, 0, 0, 4, 8, 0, 0, 0, 0, 0, 0, 0, 0]
      false false "").isOk = true ∧
    ((DecodeNESROM defaultHashes [78, 69, 83, 26, 0, 0, 4, 8, 0, 0, 0, 0, 0, 0, 0, 0]
      false false "").toOption.bind NESROM.ROMData) =
      some [78, 69, 83, 26, 0, 0, 4, 8, 0, 0, 0, 0, 0, 0, 0, 0] := by
  decide

/-- The chr-ram-size branch of the editheaderfield operation in main.go
(part_002 lines 453-468): range check and field store.  The CLI writes the
output file exactly when this returns ok. -/
def editChrRamSize (header20 : Option NES20Header) (paramInt : Nat) :
    Except String NES20Header :=
  match header20 with
  | none => .error "CHR RAM is only available in NES 2.0 headers"
  | some h =>
    if paramInt > 255 then .error "CHR RAM can have no more than 255 8KB units"
    else .ok { h with CHRRAMSize := paramInt }

/-- C9 (code bug): the chr-ram-size editor accepts and stores 16 (and every
value up to 255) although the field is a 4-bit shift exponent whose documented
range, used by every sibling field (prg-ram-size, prg-nvram-size,
chr-nvram-size) and by the tool's own usage text, is 0-15; only values above
255 are rejected. -/
theorem editChrRamSize_accepts_16 :
    editChrRamSize (some {}) 16 = .ok { ({} : NES20Header) with CHRRAMSize := 16 } ∧
    (editChrRamSize (some {}) 255).isOk = true ∧
    (editChrRamSize (some {}) 256).isOk = false ∧
    (editChrRamSize (some {}) 15).isOk = true := by
  decide

end NESTool

namespace NESTool

/-- The non-hash fields of a NES 2.0 header: everything the encoder and the
size claims read.  UpdateChecksums leaves these untouched. -/
def core20 (h : NES20Header) :=
  (h.PRGROMSize, h.PRGROMCalculatedSize, h.PRGROMSizeExponent, h.PRGROMSizeMultiplier,
   h.CHRROMSize, h.CHRROMCalculatedSize, h.CHRROMSizeExponent, h.CHRROMSizeMultiplier,
   h.PRGRAMSize, h.PRGNVRAMSize, h.CHRRAMSize, h.CHRNVRAMSize,
   h.MirroringType, h.Battery, h.Trainer, h.FourScreen,
   h.ConsoleType, h.Mapper, h.SubMapper, h.CPUPPUTiming,
   h.VsHardwareType, h.VsPPUType, h.ExtendedConsoleType, h.MiscROMs, h.DefaultExpansion)

/-- The non-hash fields of an iNES header. -/
def core10 (h : NES10Header) :=
  (h.PRGROMSize, h.PRGROMCalculatedSize, h.CHRROMSize, h.CHRROMCalculatedSize,
   h.MirroringType, h.Battery, h.Trainer, h.FourScreen, h.Mapper,
   h.VsUnisystem, h.PlayChoice10, h.PRGRAMSize, h.TVSystem)

/-- The fields of an NESROM that the encoder reads, with headers reduced to
their non-hash cores. -/
def coreROM (r : NESROM) :=
  (r.Header20.map core20, r.Header10.map core10, r.ROMData, r.TrainerData,
   r.PRGROMData, r.CHRROMData, r.MiscROMData, r.Name, r.RelativePath, r.Size)

theorem updateChecksums20_core (H : HashModel) (rom : NESROM) (h : NES20Header) :
    (updateChecksums20 H rom h).map core20 = .ok (core20 h) := by
  unfold updateChecksums20
  cases rom.PRGROMData <;> cases rom.CHRROMData <;> cases rom.MiscROMData <;>
    cases rom.TrainerData <;>
    simp only [calculateSum16, bind, Except.bind, pure, Except.pure, Except.map] <;>
    (try split_ifs) <;> rfl

theorem updateChecksums10_core (H : HashModel) (rom : NESROM) (h : NES10Header) :
    (updateChecksums10 H rom h).map core10 = .ok (core10 h) := by
  unfold updateChecksums10
  cases rom.PRGROMData <;> cases rom.CHRROMData <;> cases rom.TrainerData <;>
    simp only [calculateSum16, bind, Except.bind, pure, Except.pure, Except.map] <;>
    (try split_ifs) <;> rfl

theorem updateChecksums20_exists (H : HashModel) (rom : NESROM) (h : NES20Header) :
    ∃ h', updateChecksums20 H rom h = .ok h' ∧ core20 h' = core20 h := by
  have hmap := updateChecksums20_core H rom h
  cases hu : updateChecksums20 H rom h with
  | error e => rw [hu] at hmap; simp [Except.map] at hmap
  | ok h' => rw [hu] at hmap; simp [Except.map] at hmap; exact ⟨h', rfl, hmap⟩

theorem updateChecksums10_exists (H : HashModel) (rom : NESROM) (h : NES10Header) :
    ∃ h', updateChecksums10 H rom h = .ok h' ∧ core10 h' = core10 h := by
  have hmap := updateChecksums10_core H rom h
  cases hu : updateChecksums10 H rom h with
  | error e => rw [hu] at hmap; simp [Except.map] at hmap
  | ok h' => rw [hu] at hmap; simp [Except.map] at hmap; exact ⟨h', rfl, hmap⟩

/-- UpdateChecksums always succeeds and only rewrites hash fields. -/
theorem UpdateChecksums_core (H : HashModel) (rom : NESROM) :
    (UpdateChecksums H rom).map coreROM = .ok (coreROM rom) := by
  obtain ⟨nm, fn, rp, sz, c32, m5, s1, s256, H20, H10, RD, TD, PD, CD, MDt, HD⟩ := rom
  unfold UpdateChecksums
  cases RD with
  | none =>
    cases H20 with
    | none =>
      cases H10 with
      | none => rfl
      | some g =>
        obtain ⟨g', hu, hc⟩ := updateChecksums10_exists H
          ⟨nm, fn, rp, sz, c32, m5, s1, s256, none, some g, none, TD, PD, CD, MDt, HD⟩ g
        dsimp only
        simp only [bind, Except.bind, pure, Except.pure, hu, Except.map]
        simp [coreROM, hc]
    | some h =>
      obtain ⟨h', hu, hc⟩ := updateChecksums20_exists H
        ⟨nm, fn, rp, sz, c32, m5, s1, s256, some h, H10, none, TD, PD, CD, MDt, HD⟩ h
      cases H10 with
      | none =>
        dsimp only
        simp only [bind, Except.bind, pure, Except.pure, hu, Except.map]
        simp [coreROM, hc]
      | some g =>
        obtain ⟨g', hu10, hc10⟩ := updateChecksums10_exists H
          ⟨nm, fn, rp, sz, c32, m5, s1, s256, some h', some g, none, TD, PD, CD, MDt, HD⟩ g
        dsimp only
        simp only [bind, Except.bind, pure, Except.pure, hu, hu10, Except.map]
        simp [coreROM, hc, hc10]
  | some d =>
    cases H20 with
    | none =>
      cases H10 with
      | none => rfl
      | some g =>
        obtain ⟨g', hu, hc⟩ := updateChecksums10_exists H
          ⟨nm, fn, rp, sz, H.crc32 d, H.md5 d, H.sha1 d, H.sha256 d, none, some g,
            some d, TD, PD, CD, MDt, HD⟩ g
        dsimp only
        simp only [bind, Except.bind, pure, Except.pure, hu, Except.map]
        simp [coreROM, hc]
    | some h =>
      obtain ⟨h', hu, hc⟩ := updateChecksums20_exists H
        ⟨nm, fn, rp, sz, H.crc32 d, H.md5 d, H.sha1 d, H.sha256 d, some h, H10,
          some d, TD, PD, CD, MDt, HD⟩ h
      cases H10 with
      | none =>
        dsimp only
        simp only [bind, Except.bind, pure, Except.pure, hu, Except.map]
        simp [coreROM, hc]
      | some g =>
        obtain ⟨g', hu10, hc10⟩ := updateChecksums10_exists H
          ⟨nm, fn, rp, sz, H.crc32 d, H.md5 d, H.sha1 d, H.sha256 d, some h', some g,
            some d, TD, PD, CD, MDt, HD⟩ g
        dsimp only
        simp only [bind, Except.bind, pure, Except.pure, hu, hu10, Except.map]
        simp [coreROM, hc, hc10]

theorem UpdateChecksums_exists (H : HashModel) (rom : NESROM) :
    ∃ r', UpdateChecksums H rom = .ok r' ∧ coreROM r' = coreROM rom := by
  have hmap := UpdateChecksums_core H rom
  cases hu : UpdateChecksums H rom with
  | error e => rw [hu] at hmap; simp [Except.map] at hmap
  | ok r' => rw [hu] at hmap; simp [Except.map] at hmap; exact ⟨r', rfl, hmap⟩

end NESTool

namespace NESTool

theorem DecodeNESROM_header20_inv (H : HashModel) (F : List Nat)
    (enableInes preserveTrainer : Bool) (rel : String) (rom : NESROM)
    (hdec : DecodeNESROM H F enableInes preserveTrainer rel = .ok rom)
    (hh : rom.Header20.isSome) :
    rom.Header20.map core20 =
      some (core20 (decodeNES20Header (byteAt F) preserveTrainer)) := by
  rcases hsp : getStrippedRom F with ⟨raw, hdr, trn, er⟩
  simp only [DecodeNESROM, hsp] at hdec
  split at hdec
  · simp at hdec
  split at hdec
  · simp at hdec
  split at hdec
  · simp at hdec
  split at hdec
  · split at hdec
    · simp at hdec
    · obtain ⟨r', hu, hc⟩ := UpdateChecksums_exists H _
      rw [hu] at hdec
      cases hdec
      simp only [coreROM, Prod.mk.injEq] at hc
      rw [hc.1]
      rfl
  · split at hdec
    · simp at hdec
    · obtain ⟨r', hu, hc⟩ := UpdateChecksums_exists H _
      rw [hu] at hdec
      cases hdec
      simp only [coreROM, Prod.mk.injEq] at hc
      have h20none : rom.Header20 = none := by simpa using hc.1
      rw [h20none] at hh
      simp at hh

theorem getStrippedRom_no_trainer (F : List Nat) (hlen : 16 ≤ F.length)
    (hmagic : F.take 4 = NES_HEADER_MAGIC) (hflag : ¬(byteAt F 6 &&& 0b00000100 = 0b00000100)) :
    getStrippedRom F = (F.drop 16, some (F.take 16), none, none) := by
  unfold getStrippedRom
  rw [if_neg (Nat.not_lt.mpr hlen), if_neg (show ¬(F.take 4 ≠ NES_HEADER_MAGIC) by
    simp [hmagic]), if_neg (show ¬(byteAt F 6 &&& 0b00000100 = 0b00000100 ∧ F.length < 528) from
    fun hx => hflag hx.1), if_pos hflag]

theorem getSplitRomData_ok (d : List Nat) (prg chr : Nat) (h : prg + chr ≤ d.length) :
    getSplitRomData (some d) prg chr =
      .ok (d.take prg, (d.take (prg + chr)).drop prg, some (d.drop (prg + chr))) := by
  unfold getSplitRomData
  simp [Nat.not_lt.mpr h]

/-- The record DecodeNESROM builds in the NES 2.0, no-trainer branch, just
before the checksum refresh (a proof artifact, not a source function). -/
def decodedV2 (H : HashModel) (F : List Nat) (p : Bool) (rel : String) : NESROM :=
  let raw := F.drop 16
  let dec := decodeNES20Header (byteAt F) p
  let msc := raw.drop (dec.PRGROMCalculatedSize + dec.CHRROMCalculatedSize)
  { RelativePath := rel
    CRC32 := H.crc32 raw
    MD5 := H.md5 raw
    SHA1 := H.sha1 raw
    SHA256 := H.sha256 raw
    Size := raw.length
    ROMData := some raw
    HeaderData := some (F.take 16)
    TrainerData := none
    PRGROMData := some (raw.take dec.PRGROMCalculatedSize)
    CHRROMData :=
      some ((raw.take (dec.PRGROMCalculatedSize + dec.CHRROMCalculatedSize)).drop
        dec.PRGROMCalculatedSize)
    MiscROMData := some msc
    Header20 := some { dec with
      MiscROMCalculatedSize := if msc.length > 0 then msc.length else 0 } }

theorem DecodeNESROM_v2_ok (H : HashModel) (F : List Nat) (enableInes preserveTrainer : Bool)
    (rel : String)
    (hlen : 16 ≤ F.length)
    (hmagic : F.take 4 = NES_HEADER_MAGIC)
    (hsig : byteAt F 7 &&& NES_20_AND_MASK = NES_20_AND_MASK ∧
      byteAt F 7 ||| NES_20_OR_MASK = NES_20_OR_MASK)
    (hflag : ¬(byteAt F 6 &&& 0b00000100 = 0b00000100))
    (hfits : (decodeNES20Header (byteAt F) preserveTrainer).PRGROMCalculatedSize +
      (decodeNES20Header (byteAt F) preserveTrainer).CHRROMCalculatedSize ≤
      F.length - 16) :
    ∃ rom, DecodeNESROM H F enableInes preserveTrainer rel = .ok rom ∧
      coreROM rom = coreROM (decodedV2 H F preserveTrainer rel) := by
  have hstrip := getStrippedRom_no_trainer F hlen hmagic hflag
  have hfits' : (decodeNES20Header (byteAt F) preserveTrainer).PRGROMCalculatedSize +
      (decodeNES20Header (byteAt F) preserveTrainer).CHRROMCalculatedSize ≤
      (F.drop 16).length := by
    simpa [List.length_drop] using hfits
  have hsplit := getSplitRomData_ok (F.drop 16) _ _ hfits'
  obtain ⟨r', hu, hc⟩ := UpdateChecksums_exists H (decodedV2 H F preserveTrainer rel)
  refine ⟨r', ?_, hc⟩
  have hred : DecodeNESROM H F enableInes preserveTrainer rel =
      UpdateChecksums H (decodedV2 H F preserveTrainer rel) := by
    simp only [DecodeNESROM, hstrip]
    rw [if_neg (Nat.not_lt.mpr hlen),
      if_neg (show ¬(F.take 4 ≠ NES_HEADER_MAGIC) by simp [hmagic]),
      if_neg (show ¬(¬(byteAt F 7 &&& NES_20_AND_MASK = NES_20_AND_MASK ∧
        byteAt F 7 ||| NES_20_OR_MASK = NES_20_OR_MASK) ∧ ¬(enableInes = true)) from
        fun hx => hx.1 ⟨hsig.1, hsig.2⟩),
      if_pos ⟨hsig.1, hsig.2⟩, hsplit]
    dsimp only
    congr 1
    simp [decodedV2]
  rw [hred, hu]

end NESTool

namespace NESTool

/-- C2 amended: in every record successfully decoded by DecodeNESROM with a
NES 2.0 header, the PRG size fields follow byte 4 and the low nibble of
byte 9 (linear 16384-byte units when the nibble is not 0xF, exponential form
with the product reduced modulo 2^64 when it is, with the linear field left
zero), and mirror for CHR with byte 5, the high nibble of byte 9, and
8192-byte units.  The modulo 2^64 reduction is the amendment: Go computes
the product in uint64, and the counterexample shows the reduction is
observable at exponent 62. -/
theorem decodeNESROM_size_encoding (H : HashModel) (F : List Nat)
    (enableInes preserveTrainer : Bool) (rel : String) (rom : NESROM) (h : NES20Header)
    (hdec : DecodeNESROM H F enableInes preserveTrainer rel = .ok rom)
    (hh : rom.Header20 = some h) :
    (byteAt F 9 &&& 0b00001111 ≠ 0b00001111 →
      h.PRGROMSize = byteAt F 4 + 256 * (byteAt F 9 &&& 0b00001111) ∧
      h.PRGROMCalculatedSize = 16384 * (byteAt F 4 + 256 * (byteAt F 9 &&& 0b00001111))) ∧
    (byteAt F 9 &&& 0b00001111 = 0b00001111 →
      h.PRGROMSize = 0 ∧
      h.PRGROMCalculatedSize =
        ((1 <<< ((byteAt F 4 &&& 0b11111100) >>> 2)) *
          (2 * (byteAt F 4 &&& 0b00000011) + 1)) % 2 ^ 64) ∧
    (byteAt F 9 &&& 0b11110000 ≠ 0b11110000 →
      h.CHRROMSize = byteAt F 5 + 256 * ((byteAt F 9 &&& 0b11110000) >>> 4) ∧
      h.CHRROMCalculatedSize = 8192 * (byteAt F 5 + 256 * ((byteAt F 9 &&& 0b11110000) >>> 4))) ∧
    (byteAt F 9 &&& 0b11110000 = 0b11110000 →
      h.CHRROMSize = 0 ∧
      h.CHRROMCalculatedSize =
        ((1 <<< ((byteAt F 5 &&& 0b11111100) >>> 2)) *
          (2 * (byteAt F 5 &&& 0b00000011) + 1)) % 2 ^ 64) := by
  have hinv := DecodeNESROM_header20_inv H F enableInes preserveTrainer rel rom hdec
    (by simp [hh])
  rw [hh] at hinv
  have hcore : core20 h = core20 (decodeNES20Header (byteAt F) preserveTrainer) := by
    simpa using hinv
  simp only [core20, Prod.mk.injEq] at hcore
  obtain ⟨e1, e2, e3, e4, e5, e6, _⟩ := hcore
  refine ⟨fun hl => ⟨?_, ?_⟩, fun he => ⟨?_, ?_⟩, fun hl => ⟨?_, ?_⟩, fun he => ⟨?_, ?_⟩⟩
  · rw [e1]; simp [decodeNES20Header, hl]
  · rw [e2]; simp [decodeNES20Header, hl]
  · rw [e1]; simp [decodeNES20Header, he]
  · rw [e2]; simp [decodeNES20Header, he, Nat.mul_comm]
  · rw [e5]; simp [decodeNES20Header, hl]
  · rw [e6]; simp [decodeNES20Header, hl]
  · rw [e5]; simp [decodeNES20Header, he]
  · rw [e6]; simp [decodeNES20Header, he, Nat.mul_comm]

end NESTool

namespace NESTool

/-- A NES 2.0 file whose PRG size is the exponential form with exponent 62
and multiplier 2 (byte 4 = 0xFA, byte 9 low nibble = 0xF): the true product
5 * 2^62 exceeds 2^64 - 1, and the uint64 arithmetic of DecodeNESROM wraps
it to 2^62, so a payload of 2^62 bytes decodes successfully. -/
def c2OverflowFile : List Nat :=
  [78, 69, 83, 26, 0xFA, 0, 0, 8, 0, 15, 0, 0, 0, 0, 0, 0] ++ List.replicate (2 ^ 62) 0

theorem c2OverflowFile_length : c2OverflowFile.length = 16 + 2 ^ 62 := by
  unfold c2OverflowFile
  rw [List.length_append, List.length_replicate]
  decide

theorem decodedV2_header20 (H : HashModel) (F : List Nat) (p : Bool) (rel : String) :
    (decodedV2 H F p rel).Header20.map core20 =
      some (core20 (decodeNES20Header (byteAt F) p)) := rfl

/-- C2, claim as stated, fails: this successfully decoded NES 2.0 header has
exponent 62 and multiplier 2, but its stored PRG calculated size is 2^62,
not (1 <<< 62) * (2 * 2 + 1) = 5 * 2^62 (the Go uint64 product wrapped). -/
theorem decodeNESROM_size_overflow_counterexample :
    ∃ rom, DecodeNESROM defaultHashes c2OverflowFile false false "" = .ok rom ∧
      rom.Header20.map
        (fun h => (h.PRGROMSizeExponent, h.PRGROMSizeMultiplier, h.PRGROMCalculatedSize)) =
        some (62, 2, 2 ^ 62) ∧
      2 ^ 62 ≠ (1 <<< 62) * (2 * 2 + 1) := by
  have hdecprg : (decodeNES20Header (byteAt c2OverflowFile) false).PRGROMCalculatedSize =
      2 ^ 62 := by rfl
  have hdecchr : (decodeNES20Header (byteAt c2OverflowFile) false).CHRROMCalculatedSize =
      0 := by rfl
  have hlen : 16 ≤ c2OverflowFile.length := by
    rw [c2OverflowFile_length]; exact Nat.le_add_right 16 _
  have hfits : (decodeNES20Header (byteAt c2OverflowFile) false).PRGROMCalculatedSize +
      (decodeNES20Header (byteAt c2OverflowFile) false).CHRROMCalculatedSize ≤
      c2OverflowFile.length - 16 := by
    rw [hdecprg, hdecchr, c2OverflowFile_length]
    omega
  have hmagic : c2OverflowFile.take 4 = NES_HEADER_MAGIC := rfl
  have hsig1 : byteAt c2OverflowFile 7 &&& NES_20_AND_MASK = NES_20_AND_MASK := rfl
  have hsig2 : byteAt c2OverflowFile 7 ||| NES_20_OR_MASK = NES_20_OR_MASK := rfl
  have hflag : ¬(byteAt c2OverflowFile 6 &&& 0b00000100 = 0b00000100) := by decide
  obtain ⟨rom, hdec, hc⟩ := DecodeNESROM_v2_ok defaultHashes c2OverflowFile false false ""
    hlen hmagic ⟨hsig1, hsig2⟩ hflag hfits
  refine ⟨rom, hdec, ?_, by decide⟩
  simp only [coreROM, Prod.mk.injEq] at hc
  have h1 := hc.1
  rw [decodedV2_header20] at h1
  cases hrom : rom.Header20 with
  | none => rw [hrom] at h1; simp at h1
  | some h' =>
    rw [hrom] at h1
    have hcore := Option.some.inj (by simpa using h1)
    simp only [core20, Prod.mk.injEq] at hcore
    obtain ⟨e1, e2, e3, e4, _⟩ := hcore
    simp only [hrom, Option.map_some']
    rw [e2, e3, e4, hdecprg]
    rfl

end NESTool

namespace NESTool

/-- A 17-byte NES 2.0 file: exponential PRG form (exponent 0, multiplier 0,
one byte of PRG data), CHR linear count 0. -/
def c2WitnessFile : List Nat := [78, 69, 83, 26, 0, 0, 0, 8, 0, 15, 0, 0, 0, 0, 0, 0, 7]

/-- The record DecodeNESROM returns on c2WitnessFile. -/
def c2WitnessRom : NESROM :=
  ((DecodeNESROM defaultHashes c2WitnessFile false false "").toOption).getD {}

/-- The NES 2.0 header of c2WitnessRom. -/
def c2WitnessHeader : NES20Header := c2WitnessRom.Header20.getD {}

/-- Witness for decodeNESROM_size_encoding on the concrete file above. -/
theorem decodeNESROM_size_encoding_witness :
    (DecodeNESROM defaultHashes c2WitnessFile false false "" = .ok c2WitnessRom ∧
      c2WitnessRom.Header20 = some c2WitnessHeader ∧
      byteAt c2WitnessFile 9 &&& 0b00001111 = 0b00001111) ∧
    c2WitnessHeader.PRGROMSize = 0 ∧
    c2WitnessHeader.PRGROMCalculatedSize =
      ((1 <<< ((byteAt c2WitnessFile 4 &&& 0b11111100) >>> 2)) *
        (2 * (byteAt c2WitnessFile 4 &&& 0b00000011) + 1)) % 2 ^ 64 :=
  ⟨⟨by decide, by decide, by decide⟩,
    (decodeNESROM_size_encoding defaultHashes c2WitnessFile false false ""
      c2WitnessRom c2WitnessHeader (by decide) (by decide)).2.1 (by decide)⟩

end NESTool

namespace NESTool

set_option maxRecDepth 4000

theorem mask255_eq_mod (n : Nat) : n &&& 255 = n % 256 := Nat.and_pow_two_sub_one_eq_mod n 8

theorem landMod (w m : Nat) (hw : w < 256) : (w + 256 * m) &&& 255 = w := by
  rw [mask255_eq_mod]; omega

theorem shift8 (w m : Nat) (hw : w < 256) : (w + 256 * m) >>> 8 = m := by
  rw [Nat.shiftRight_eq_div_pow]; omega

theorem d_hi_shr : ∀ x < 256, (x &&& 240) >>> 4 = x / 16 := by decide

theorem d_hi_mul : ∀ x < 256, x &&& 240 = 16 * (x / 16) := by decide

theorem d_or_combine : ∀ a < 16, ∀ c < 16, a ||| 16 * c = 16 * c + a := by decide

theorem d_comb_and15 : ∀ h' < 16, ∀ l' < 16, (16 * h' + l') &&& 15 = l' := by decide

theorem d_comb_and240 : ∀ h' < 16, ∀ l' < 16, (16 * h' + l') &&& 240 = 16 * h' := by decide

theorem c_b4exp : ∀ x < 256, (x &&& 252) >>> 2 <<< 2 ||| x &&& 3 = x := by decide

theorem c_b5expcond : ∀ x < 256, 0 < x → (0 < (x &&& 252) >>> 2 ∨ 0 < x &&& 3) := by decide

theorem c_flags : ∀ x < 256, ¬(x &&& 4 = 4) →
    ((if x % 2 = 1 then 1 else 0) ||| (if x &&& 2 = 2 then 2 else 0) |||
      (if x &&& 8 = 8 then 8 else 0) ||| (x / 16) <<< 4) = x := by decide

theorem c_b7r : ∀ y < 256, y &&& 8 = 8 → y ||| 251 = 251 →
    (16 * (y / 16) ||| y &&& 3 &&& 3 ||| 8) = y := by decide

theorem c_b8r : ∀ z < 256, (z &&& 15 &&& 255 &&& 15 ||| ((z &&& 240) >>> 4 &&& 15) <<< 4) = z := by
  decide

theorem c_b9ff : ∀ n < 256, n &&& 15 = 15 → n &&& 240 = 240 → 255 = n := by decide

theorem c_b9lo : ∀ n < 256, (n &&& 15) &&& 255 &&& 15 = n &&& 15 := by decide

theorem c_b9hi : ∀ n < 256, ((n &&& 240) >>> 4) &&& 255 &&& 15 = (n &&& 240) >>> 4 := by decide

theorem c_b9asm : ∀ n < 256, n &&& 15 ||| ((n &&& 240) >>> 4) <<< 4 = n := by decide

theorem c_b9asm15 : ∀ n < 256, n &&& 15 = 15 → 15 ||| ((n &&& 240) >>> 4) <<< 4 = n := by decide

theorem c_b9z1 : ∀ n < 256, (n &&& 240) >>> 4 = 0 → (n &&& 15) &&& 15 = n := by decide

theorem c_b9z2 : ∀ n < 256, n &&& 15 = 15 → (n &&& 240) >>> 4 = 0 → 15 = n := by decide

theorem c_b9hi240 : ∀ n < 256, n &&& 240 = 240 → n &&& 15 ||| 240 = n := by decide

theorem c_nib : ∀ x < 256, ((if 0 < x &&& 15 then x &&& 15 else 0) |||
    if 0 < (x &&& 240) >>> 4 then (x &&& 240) >>> 4 <<< 4 else 0) = x := by decide

theorem c_b12r : ∀ x < 256, x &&& 252 = 0 → x &&& 3 = x := by decide

theorem c_b13vs : ∀ x < 256, ((x &&& 240) >>> 4 &&& 15) <<< 4 ||| x &&& 15 &&& 15 = x := by decide

theorem c_b13ext : ∀ x < 256, x &&& 240 = 0 → x &&& 15 &&& 15 = x := by decide

theorem c_b14r : ∀ x < 256, x &&& 252 = 0 → 3 &&& (x &&& 3) = x := by decide

theorem c_b15r : ∀ x < 256, x &&& 192 = 0 → 63 &&& (x &&& 63) = x := by decide

theorem header20_roundtrip (rom : NESROM) (p : Bool) (b : Nat → Nat)
    (hb4 : b 4 < 256) (hb5 : b 5 < 256) (hb6 : b 6 < 256) (hb7 : b 7 < 256)
    (hb8 : b 8 < 256) (hb9 : b 9 < 256) (hb10 : b 10 < 256) (hb11 : b 11 < 256)
    (hb12 : b 12 < 256) (hb13 : b 13 < 256) (hb14 : b 14 < 256) (hb15 : b 15 < 256)
    (hsig1 : b 7 &&& 8 = 8) (hsig2 : b 7 ||| 251 = 251)
    (hflag : ¬(b 6 &&& 4 = 4))
    (hres12 : b 12 &&& 252 = 0)
    (hres14 : b 14 &&& 252 = 0)
    (hres15 : b 15 &&& 192 = 0)
    (hres13a : b 7 &&& 3 = 0 ∨ b 7 &&& 3 = 2 → b 13 = 0)
    (hres13b : b 7 &&& 3 = 3 → b 13 &&& 240 = 0)
    (hprg : ¬(b 4 = 0 ∧ b 9 &&& 15 = 0))
    (hchr : ¬(b 5 = 0 ∧ b 9 &&& 240 = 240)) :
    encodeNES20HeaderBytes rom (decodeNES20Header b p) p =
      [78, 69, 83, 26, b 4, b 5, b 6, b 7, b 8, b 9, b 10, b 11, b 12, b 13, b 14, b 15] := by
  have hMlt : (b 6 &&& 240) >>> 4 ||| b 7 &&& 240 < 256 := by
    rw [d_hi_shr (b 6) hb6, d_hi_mul (b 7) hb7,
      d_or_combine (b 6 / 16) (by omega) (b 7 / 16) (by omega)]
    omega
  have hM15 : ((b 6 &&& 240) >>> 4 ||| b 7 &&& 240) &&& 15 = b 6 / 16 := by
    rw [d_hi_shr (b 6) hb6, d_hi_mul (b 7) hb7,
      d_or_combine (b 6 / 16) (by omega) (b 7 / 16) (by omega),
      d_comb_and15 (b 7 / 16) (by omega) (b 6 / 16) (by omega)]
  have hM240 : ((b 6 &&& 240) >>> 4 ||| b 7 &&& 240) &&& 240 = 16 * (b 7 / 16) := by
    rw [d_hi_shr (b 6) hb6, d_hi_mul (b 7) hb7,
      d_or_combine (b 6 / 16) (by omega) (b 7 / 16) (by omega),
      d_comb_and240 (b 7 / 16) (by omega) (b 6 / 16) (by omega)]
  have hb13c : (if b 7 &&& 3 = 1 then
        ((if b 7 &&& 3 = 1 then (b 13 &&& 240) >>> 4 else 0) &&& 15) <<< 4 |||
          (if b 7 &&& 3 = 1 then b 13 &&& 15 else 0) &&& 15
      else if b 7 &&& 3 = 3 then (if b 7 &&& 3 = 3 then b 13 &&& 15 else 0) &&& 15 else 0) =
      b 13 := by
    by_cases h1 : b 7 &&& 3 = 1
    · simp only [h1, if_pos]
      exact c_b13vs (b 13) hb13
    · by_cases h3 : b 7 &&& 3 = 3
      · simp only [h1, h3, if_neg, if_pos, ite_false, ite_true]
        exact c_b13ext (b 13) hb13 (hres13b h3)
      · simp only [h1, h3, ite_false]
        have hle : b 7 &&& 3 ≤ 3 := Nat.and_le_right
        exact (hres13a (by omega)).symm
  by_cases hlin : b 9 &&& 15 = 15
  · by_cases hclin : b 9 &&& 240 = 240
    · have hb5pos : 0 < b 5 := Nat.pos_of_ne_zero fun h => hchr ⟨h, hclin⟩
      simp [encodeNES20HeaderBytes, decodeNES20Header, NES_HEADER_MAGIC, hlin, hclin]
      refine ⟨c_b4exp (b 4) hb4, ?_, ?_, ?_, ?_, ?_, c_nib (b 10) hb10, c_nib (b 11) hb11,
        c_b12r (b 12) hb12 hres12, hb13c, c_b14r (b 14) hb14 hres14, c_b15r (b 15) hb15 hres15⟩
      · rw [if_pos (c_b5expcond (b 5) hb5 hb5pos)]
        exact c_b4exp (b 5) hb5
      · have htr : ¬(p = true ∧ (p = true ∧ b 6 &&& 4 = 4) ∧
            (rom.TrainerData.getD []).length = 512) := fun hc => hflag hc.2.1.2
        rw [landMod _ _ hMlt, hM15, if_neg htr, Nat.or_zero]
        exact c_flags (b 6) hb6 hflag
      · rw [landMod _ _ hMlt, hM240]
        exact c_b7r (b 7) hb7 hsig1 hsig2
      · rw [shift8 _ _ hMlt]
        exact c_b8r (b 8) hb8
      · rw [if_pos (c_b5expcond (b 5) hb5 hb5pos)]
        exact c_b9ff (b 9) hb9 hlin hclin
    · simp [encodeNES20HeaderBytes, decodeNES20Header, NES_HEADER_MAGIC, hlin, hclin]
      refine ⟨c_b4exp (b 4) hb4, ?_, ?_, ?_, ?_, ?_, c_nib (b 10) hb10, c_nib (b 11) hb11,
        c_b12r (b 12) hb12 hres12, hb13c, c_b14r (b 14) hb14 hres14, c_b15r (b 15) hb15 hres15⟩
      · by_cases hc5 : 0 < b 5 ∨ 0 < (b 9 &&& 240) >>> 4
        · rw [if_pos hc5, landMod _ _ hb5]
        · rw [if_neg hc5]
          exact (Nat.eq_zero_of_not_pos fun hp => hc5 (Or.inl hp)).symm
      · have htr : ¬(p = true ∧ (p = true ∧ b 6 &&& 4 = 4) ∧
            (rom.TrainerData.getD []).length = 512) := fun hc => hflag hc.2.1.2
        rw [landMod _ _ hMlt, hM15, if_neg htr, Nat.or_zero]
        exact c_flags (b 6) hb6 hflag
      · rw [landMod _ _ hMlt, hM240]
        exact c_b7r (b 7) hb7 hsig1 hsig2
      · rw [shift8 _ _ hMlt]
        exact c_b8r (b 8) hb8
      · by_cases hc5 : 0 < b 5 ∨ 0 < (b 9 &&& 240) >>> 4
        · rw [if_pos hc5, shift8 _ _ hb5, c_b9hi (b 9) hb9]
          exact c_b9asm15 (b 9) hb9 hlin
        · rw [if_neg hc5]
          exact c_b9z2 (b 9) hb9 hlin (Nat.eq_zero_of_not_pos fun hp => hc5 (Or.inr hp))
  · by_cases hclin : b 9 &&& 240 = 240
    · have hb5pos : 0 < b 5 := Nat.pos_of_ne_zero fun h => hchr ⟨h, hclin⟩
      have hpos4 : 0 < b 4 ∨ 0 < b 9 &&& 15 := by
        rcases Nat.eq_zero_or_pos (b 4) with h4 | h4
        · exact Or.inr (Nat.pos_of_ne_zero fun h9 => hprg ⟨h4, h9⟩)
        · exact Or.inl h4
      simp [encodeNES20HeaderBytes, decodeNES20Header, NES_HEADER_MAGIC, hlin, hclin]
      refine ⟨?_, ?_, ?_, ?_, ?_, ?_, c_nib (b 10) hb10, c_nib (b 11) hb11,
        c_b12r (b 12) hb12 hres12, hb13c, c_b14r (b 14) hb14 hres14, c_b15r (b 15) hb15 hres15⟩
      · rw [if_pos hpos4, landMod _ _ hb4]
      · rw [if_pos (c_b5expcond (b 5) hb5 hb5pos)]
        exact c_b4exp (b 5) hb5
      · have htr : ¬(p = true ∧ (p = true ∧ b 6 &&& 4 = 4) ∧
            (rom.TrainerData.getD []).length = 512) := fun hc => hflag hc.2.1.2
        rw [landMod _ _ hMlt, hM15, if_neg htr, Nat.or_zero]
        exact c_flags (b 6) hb6 hflag
      · rw [landMod _ _ hMlt, hM240]
        exact c_b7r (b 7) hb7 hsig1 hsig2
      · rw [shift8 _ _ hMlt]
        exact c_b8r (b 8) hb8
      · rw [if_pos (c_b5expcond (b 5) hb5 hb5pos), if_pos hpos4, shift8 _ _ hb4,
          c_b9lo (b 9) hb9]
        exact c_b9hi240 (b 9) hb9 hclin
    · have hpos4 : 0 < b 4 ∨ 0 < b 9 &&& 15 := by
        rcases Nat.eq_zero_or_pos (b 4) with h4 | h4
        · exact Or.inr (Nat.pos_of_ne_zero fun h9 => hprg ⟨h4, h9⟩)
        · exact Or.inl h4
      simp [encodeNES20HeaderBytes, decodeNES20Header, NES_HEADER_MAGIC, hlin, hclin]
      refine ⟨?_, ?_, ?_, ?_, ?_, ?_, c_nib (b 10) hb10, c_nib (b 11) hb11,
        c_b12r (b 12) hb12 hres12, hb13c, c_b14r (b 14) hb14 hres14, c_b15r (b 15) hb15 hres15⟩
      · rw [if_pos hpos4, landMod _ _ hb4]
      · by_cases hc5 : 0 < b 5 ∨ 0 < (b 9 &&& 240) >>> 4
        · rw [if_pos hc5, landMod _ _ hb5]
        · rw [if_neg hc5]
          exact (Nat.eq_zero_of_not_pos fun hp => hc5 (Or.inl hp)).symm
      · have htr : ¬(p = true ∧ (p = true ∧ b 6 &&& 4 = 4) ∧
            (rom.TrainerData.getD []).length = 512) := fun hc => hflag hc.2.1.2
        rw [landMod _ _ hMlt, hM15, if_neg htr, Nat.or_zero]
        exact c_flags (b 6) hb6 hflag
      · rw [landMod _ _ hMlt, hM240]
        exact c_b7r (b 7) hb7 hsig1 hsig2
      · rw [shift8 _ _ hMlt]
        exact c_b8r (b 8) hb8
      · by_cases hc5 : 0 < b 5 ∨ 0 < (b 9 &&& 240) >>> 4
        · rw [if_pos hc5, if_pos hpos4, shift8 _ _ hb4, shift8 _ _ hb5, c_b9lo (b 9) hb9,
            c_b9hi (b 9) hb9]
          exact c_b9asm (b 9) hb9
        · rw [if_neg hc5, if_pos hpos4, shift8 _ _ hb4, c_b9lo (b 9) hb9]
          exact c_b9z1 (b 9) hb9 (Nat.eq_zero_of_not_pos fun hp => hc5 (Or.inr hp))

end NESTool

namespace NESTool

theorem encodeNES20HeaderBytes_congr (r : NESROM) (h1 h2 : NES20Header) (p : Bool)
    (hcore : core20 h1 = core20 h2) :
    encodeNES20HeaderBytes r h1 p = encodeNES20HeaderBytes r h2 p := by
  simp only [core20, Prod.mk.injEq] at hcore
  obtain ⟨e1, e2, e3, e4, e5, e6, e7, e8, e9, e10, e11, e12, e13, e14, e15, e16, e17, e18,
    e19, e20, e21, e22, e23, e24, e25⟩ := hcore
  simp only [encodeNES20HeaderBytes, e1, e2, e3, e4, e5, e6, e7, e8, e9, e10, e11, e12, e13,
    e14, e15, e16, e17, e18, e19, e20, e21, e22, e23, e24, e25]

theorem byteAt_lt (F : List Nat) (hvals : ∀ x ∈ F, x < 256) (i : Nat) : byteAt F i < 256 := by
  unfold byteAt
  rcases hF : F[i]? with _ | v
  · simp [List.getD, hF]
  · have hv := hvals v (List.getElem?_mem hF)
    simp [List.getD, hF, hv]

theorem take16_magic (F : List Nat) (hlen : 16 ≤ F.length)
    (hmagic : F.take 4 = NES_HEADER_MAGIC) :
    F.take 16 = [78, 69, 83, 26, byteAt F 4, byteAt F 5, byteAt F 6, byteAt F 7, byteAt F 8,
      byteAt F 9, byteAt F 10, byteAt F 11, byteAt F 12, byteAt F 13, byteAt F 14,
      byteAt F 15] := by
  rcases F with _ | ⟨a0, _ | ⟨a1, _ | ⟨a2, _ | ⟨a3, _ | ⟨a4, _ | ⟨a5, _ | ⟨a6, _ | ⟨a7, _ |
    ⟨a8, _ | ⟨a9, _ | ⟨a10, _ | ⟨a11, _ | ⟨a12, _ | ⟨a13, _ | ⟨a14, _ | ⟨a15,
    rest⟩⟩⟩⟩⟩⟩⟩⟩⟩⟩⟩⟩⟩⟩⟩⟩
  all_goals try simp at hlen
  simp [NES_HEADER_MAGIC] at hmagic
  obtain ⟨rfl, rfl, rfl, rfl⟩ := hmagic
  simp [byteAt]

theorem decodedV2_ROMData (H : HashModel) (F : List Nat) (p : Bool) (rel : String) :
    (decodedV2 H F p rel).ROMData = some (F.drop 16) := rfl

theorem decodedV2_TrainerData (H : HashModel) (F : List Nat) (p : Bool) (rel : String) :
    (decodedV2 H F p rel).TrainerData = none := rfl

end NESTool

namespace NESTool

/-- C1 amended: decoding a well-formed NES 2.0 file and re-encoding it
reproduces the input byte for byte.  Well-formed means: at least 16 bytes of
byte values, the four magic bytes, the NES 2.0 signature bits in byte 7, no
trainer flag, the reserved bits of bytes 12-15 zero (byte 13 only carrying a
console-variant nibble the console type exposes), the declared PRG and CHR
sizes covered by the payload, and neither the PRG all-zero linear encoding
(byte 4 = 0 with low nibble of byte 9 = 0) nor the CHR empty exponential
encoding (byte 5 = 0 with high nibble of byte 9 = 0xF), the two shapes the
encoder cannot reproduce. -/
theorem decodeThenEncodeNESROM_roundtrip (H : HashModel) (F : List Nat)
    (hvals : ∀ x ∈ F, x < 256)
    (hlen : 16 ≤ F.length)
    (hmagic : F.take 4 = NES_HEADER_MAGIC)
    (hsig1 : byteAt F 7 &&& 0b00001000 = 0b00001000)
    (hsig2 : byteAt F 7 ||| 0b11111011 = 0b11111011)
    (hflag : ¬(byteAt F 6 &&& 0b00000100 = 0b00000100))
    (hres12 : byteAt F 12 &&& 0b11111100 = 0)
    (hres14 : byteAt F 14 &&& 0b11111100 = 0)
    (hres15 : byteAt F 15 &&& 0b11000000 = 0)
    (hres13a : byteAt F 7 &&& 0b00000011 = 0 ∨ byteAt F 7 &&& 0b00000011 = 2 →
      byteAt F 13 = 0)
    (hres13b : byteAt F 7 &&& 0b00000011 = 3 → byteAt F 13 &&& 0b11110000 = 0)
    (hprg : ¬(byteAt F 4 = 0 ∧ byteAt F 9 &&& 0b00001111 = 0))
    (hchr : ¬(byteAt F 5 = 0 ∧ byteAt F 9 &&& 0b11110000 = 0b11110000))
    (hfits : (decodeNES20Header (byteAt F) false).PRGROMCalculatedSize +
      (decodeNES20Header (byteAt F) false).CHRROMCalculatedSize ≤ F.length - 16) :
    decodeThenEncodeNESROM H F = .ok F := by
  obtain ⟨rom, hdec, hc⟩ := DecodeNESROM_v2_ok H F false false "" hlen hmagic
    ⟨hsig1, hsig2⟩ hflag hfits
  unfold decodeThenEncodeNESROM
  rw [hdec]
  simp only [coreROM, Prod.mk.injEq] at hc
  obtain ⟨h20e, _, hRD, hTD, _⟩ := hc
  rw [decodedV2_header20] at h20e
  rw [decodedV2_ROMData] at hRD
  rw [decodedV2_TrainerData] at hTD
  cases hrom : rom.Header20 with
  | none => rw [hrom] at h20e; simp at h20e
  | some h =>
    rw [hrom] at h20e
    have hcore : core20 h = core20 (decodeNES20Header (byteAt F) false) :=
      Option.some.inj (by simpa using h20e)
    have henc : encodeNES20HeaderBytes rom h false = F.take 16 := by
      rw [encodeNES20HeaderBytes_congr rom h (decodeNES20Header (byteAt F) false) false hcore]
      rw [header20_roundtrip rom false (byteAt F)
        (byteAt_lt F hvals 4) (byteAt_lt F hvals 5) (byteAt_lt F hvals 6)
        (byteAt_lt F hvals 7) (byteAt_lt F hvals 8) (byteAt_lt F hvals 9)
        (byteAt_lt F hvals 10) (byteAt_lt F hvals 11) (byteAt_lt F hvals 12)
        (byteAt_lt F hvals 13) (byteAt_lt F hvals 14) (byteAt_lt F hvals 15)
        hsig1 hsig2 hflag hres12 hres14 hres15 hres13a hres13b hprg hchr]
      rw [take16_magic F hlen hmagic]
    simp [EncodeNESROM, EncodeNESROMHeader, hrom, hRD, hTD, henc, List.take_append_drop]

end NESTool

namespace NESTool

/-- An 18-byte well-formed NES 2.0 file: PRG in exponential form (byte 4 =
4: exponent 1, multiplier 0, so 2 bytes of PRG data), CHR absent. -/
def c1WitnessFile : List Nat := [78, 69, 83, 26, 4, 0, 0, 8, 0, 15, 0, 0, 0, 0, 0, 0, 7, 9]

/-- Witness for decodeThenEncodeNESROM_roundtrip on the concrete file above. -/
theorem decodeThenEncodeNESROM_roundtrip_witness :
    ((∀ x ∈ c1WitnessFile, x < 256) ∧
      16 ≤ c1WitnessFile.length ∧
      c1WitnessFile.take 4 = NES_HEADER_MAGIC ∧
      byteAt c1WitnessFile 7 &&& 0b00001000 = 0b00001000 ∧
      byteAt c1WitnessFile 7 ||| 0b11111011 = 0b11111011 ∧
      ¬(byteAt c1WitnessFile 6 &&& 0b00000100 = 0b00000100) ∧
      ¬(byteAt c1WitnessFile 4 = 0 ∧ byteAt c1WitnessFile 9 &&& 0b00001111 = 0) ∧
      ¬(byteAt c1WitnessFile 5 = 0 ∧ byteAt c1WitnessFile 9 &&& 0b11110000 = 0b11110000) ∧
      (decodeNES20Header (byteAt c1WitnessFile) false).PRGROMCalculatedSize +
        (decodeNES20Header (byteAt c1WitnessFile) false).CHRROMCalculatedSize ≤
        c1WitnessFile.length - 16) ∧
    decodeThenEncodeNESROM defaultHashes c1WitnessFile = .ok c1WitnessFile :=
  ⟨⟨by decide, by decide, by decide, by decide, by decide, by decide, by decide, by decide,
      by decide⟩,
    decodeThenEncodeNESROM_roundtrip defaultHashes c1WitnessFile (by decide) (by decide)
      (by decide) (by decide) (by decide) (by decide) (by decide) (by decide) (by decide)
      (by decide) (by decide) (by decide) (by decide) (by decide)⟩

/-- C1, claim as stated, fails: the 16-byte NES 2.0 file with byte 4 = 0 and
byte 9 = 0 (PRG linear count zero) decodes successfully, but re-encoding
writes 0x0F into the low nibble of byte 9 (EncodeNESROMHeader emits the
exponential marker whenever PRGROMSize is 0), so the output differs from the
input. -/
theorem decodeThenEncodeNESROM_not_identity :
    decodeThenEncodeNESROM defaultHashes [78, 69, 83, 26, 0, 0, 0, 8, 0, 0, 0, 0, 0, 0, 0, 0] =
      .ok [78, 69, 83, 26, 0, 0, 0, 8, 0, 15, 0, 0, 0, 0, 0, 0] ∧
    ([78, 69, 83, 26, 0, 0, 0, 8, 0, 15, 0, 0, 0, 0, 0, 0] : List Nat) ≠
      [78, 69, 83, 26, 0, 0, 0, 8, 0, 0, 0, 0, 0, 0, 0, 0] := by decide

end NESTool

namespace NESTool

def HASH_TYPE_SUM16 : Nat := 1

def HASH_TYPE_CRC32 : Nat := 2

def HASH_TYPE_MD5 : Nat := 4

def HASH_TYPE_SHA1 : Nat := 8

def HASH_TYPE_SHA256 : Nat := 16

/-- One upper-case hex digit (hex.EncodeToString followed by
strings.ToUpper in the Go sources). -/
def upperHexChar (n : Nat) : Char := if n < 10 then Char.ofNat (48 + n) else Char.ofNat (55 + n)

/-- Upper-case hex of one byte. -/
def upperHexByte (b : Nat) : String :=
  String.mk [upperHexChar ((b / 16) % 16), upperHexChar (b % 16)]

/-- strings.ToUpper(hex.EncodeToString(bytes)). -/
def upperHex (bs : List Nat) : String := String.join (bs.map upperHexByte)

/-- binary.BigEndian.PutUint32 of a CRC-32 value. -/
def crc32BigEndianBytes (c : Nat) : List Nat :=
  [(c >>> 24) &&& 255, (c >>> 16) &&& 255, (c >>> 8) &&& 255, c &&& 255]

/-- Go map lookup, with the map modeled as an association list (Go map
iteration order is abstracted as the list order). -/
def lookupMap (m : List (String × NESROM)) (k : String) : Option NESROM :=
  (m.find? (fun e => e.1 == k)).map (·.2)

/-- One template entry of the per-segment matching loop of MatchNESROM from
part_006, generic in the per-segment hash projections (the Go source repeats
this block verbatim for each algorithm).  A template with a NES 2.0 header is
compared against either header of the test ROM; PRG hashes must agree and the
CHR side matches trivially when both linear CHRROMSize fields are 0. -/
def segMatch {α : Type} [DecidableEq α] (enableInes : Bool)
    (p20 c20 : NES20Header → α) (p10 c10 : NES10Header → α)
    (t r : NESROM) : Bool :=
  match t.Header20 with
  | some th =>
    (match r.Header20 with
     | some rh =>
       decide (p20 th = p20 rh) &&
         (decide (th.CHRROMSize = 0 ∧ rh.CHRROMSize = 0) || decide (c20 th = c20 rh))
     | none => false) ||
    (match r.Header10 with
     | some rh =>
       decide (p20 th = p10 rh) &&
         (decide (th.CHRROMSize = 0 ∧ rh.CHRROMSize = 0) || decide (c20 th = c10 rh))
     | none => false)
  | none =>
    if enableInes then
      match t.Header10 with
      | some th =>
        (match r.Header20 with
         | some rh =>
           decide (p10 th = p20 rh) &&
             (decide (th.CHRROMSize = 0 ∧ rh.CHRROMSize = 0) || decide (c10 th = c20 rh))
         | none => false) ||
        (match r.Header10 with
         | some rh =>
           decide (p10 th = p10 rh) &&
             (decide (th.CHRROMSize = 0 ∧ rh.CHRROMSize = 0) || decide (c10 th = c10 rh))
         | none => false)
      | none => false
    else false

/-- The SHA-256 per-segment loop of MatchNESROM. -/
def sha256StageFind (e : Bool) (m : List (String × NESROM)) (r : NESROM) : Option NESROM :=
  (m.find? (fun t => segMatch e (·.PRGROMSHA256) (·.CHRROMSHA256) (·.PRGROMSHA256)
    (·.CHRROMSHA256) t.2 r)).map (·.2)

/-- The SHA-1 per-segment loop of MatchNESROM. -/
def sha1StageFind (e : Bool) (m : List (String × NESROM)) (r : NESROM) : Option NESROM :=
  (m.find? (fun t => segMatch e (·.PRGROMSHA1) (·.CHRROMSHA1) (·.PRGROMSHA1)
    (·.CHRROMSHA1) t.2 r)).map (·.2)

/-- The MD5 per-segment loop of MatchNESROM. -/
def md5StageFind (e : Bool) (m : List (String × NESROM)) (r : NESROM) : Option NESROM :=
  (m.find? (fun t => segMatch e (·.PRGROMMD5) (·.CHRROMMD5) (·.PRGROMMD5)
    (·.CHRROMMD5) t.2 r)).map (·.2)

/-- The CRC-32 per-segment loop of MatchNESROM. -/
def crc32StageFind (e : Bool) (m : List (String × NESROM)) (r : NESROM) : Option NESROM :=
  (m.find? (fun t => segMatch e (·.PRGROMCRC32) (·.CHRROMCRC32) (·.PRGROMCRC32)
    (·.CHRROMCRC32) t.2 r)).map (·.2)

/-- The Sum-16 per-segment loop of MatchNESROM. -/
def sum16StageFind (e : Bool) (m : List (String × NESROM)) (r : NESROM) : Option NESROM :=
  (m.find? (fun t => segMatch e (·.PRGROMSum16) (·.CHRROMSum16) (·.PRGROMSum16)
    (·.CHRROMSum16) t.2 r)).map (·.2)

/-- MatchNESROM from part_006: five algorithm stages in fixed order (SHA-256,
SHA-1, MD5, CRC-32, Sum-16), each enabled by its bit in hashTypeTests; a
keyed whole-image lookup ("ALGO:" + upper hex) precedes the per-segment loop
in each keyed stage, and the first hit anywhere wins. -/
def MatchNESROM (testRom : NESROM) (templateRomMap : List (String × NESROM))
    (hashTypeTests : Nat) (enableInes : Bool) : Except String NESROM :=
  let r256 : Option NESROM :=
    if hashTypeTests &&& HASH_TYPE_SHA256 > 0 then
      (lookupMap templateRomMap ("SHA256:" ++ upperHex testRom.SHA256)).orElse
        (fun _ => sha256StageFind enableInes templateRomMap testRom)
    else none
  let r1 : Option NESROM :=
    if hashTypeTests &&& HASH_TYPE_SHA1 > 0 then
      (lookupMap templateRomMap ("SHA1:" ++ upperHex testRom.SHA1)).orElse
        (fun _ => sha1StageFind enableInes templateRomMap testRom)
    else none
  let rmd5 : Option NESROM :=
    if hashTypeTests &&& HASH_TYPE_MD5 > 0 then
      (lookupMap templateRomMap ("MD5:" ++ upperHex testRom.MD5)).orElse
        (fun _ => md5StageFind enableInes templateRomMap testRom)
    else none
  let rcrc : Option NESROM :=
    if hashTypeTests &&& HASH_TYPE_CRC32 > 0 then
      (lookupMap templateRomMap
          ("CRC32:" ++ upperHex (crc32BigEndianBytes testRom.CRC32))).orElse
        (fun _ => crc32StageFind enableInes templateRomMap testRom)
    else none
  let rsum : Option NESROM :=
    if hashTypeTests &&& HASH_TYPE_SUM16 > 0 then
      sum16StageFind enableInes templateRomMap testRom
    else none
  match ((((r256.orElse fun _ => r1).orElse fun _ => rmd5).orElse
      fun _ => rcrc).orElse fun _ => rsum) with
  | some t => .ok t
  | none =>
    .error ("No match found for NES ROM: " ++ testRom.Name ++ "\nCRC32: " ++
      upperHex (crc32BigEndianBytes testRom.CRC32) ++ "\nSHA1: " ++ upperHex testRom.SHA1 ++
      "\nSHA256: " ++ upperHex testRom.SHA256)

end NESTool

namespace NESTool

/-- TruncateROMDataAndSections from NESTool/NESROM.go: trim PRG and CHR
segments to the calculated sizes of whichever header is present and rebuild
ROMData as their concatenation. -/
def TruncateROMDataAndSections (rom : NESROM) : NESROM :=
  match rom.Header20 with
  | some h =>
    let prg := if (rom.PRGROMData.getD []).length > h.PRGROMCalculatedSize then
        some ((rom.PRGROMData.getD []).take h.PRGROMCalculatedSize) else rom.PRGROMData
    let chr := if (rom.CHRROMData.getD []).length > h.CHRROMCalculatedSize then
        some ((rom.CHRROMData.getD []).take h.CHRROMCalculatedSize) else rom.CHRROMData
    { rom with PRGROMData := prg
               CHRROMData := chr
               ROMData := some (prg.getD [] ++ chr.getD []) }
  | none =>
    match rom.Header10 with
    | some h =>
      let prg := if (rom.PRGROMData.getD []).length > h.PRGROMCalculatedSize then
          some ((rom.PRGROMData.getD []).take h.PRGROMCalculatedSize) else rom.PRGROMData
      let chr := if (rom.CHRROMData.getD []).length > h.CHRROMCalculatedSize then
          some ((rom.CHRROMData.getD []).take h.CHRROMCalculatedSize) else rom.CHRROMData
      { rom with PRGROMData := prg
                 CHRROMData := chr
                 ROMData := some (prg.getD [] ++ chr.getD []) }
    | none => rom

/-- UpdateNESROM from part_006, with the mutation of targetRom returned as a
new record.  The template's header (NES 2.0 preferred, iNES only when
enableInes) replaces the target's, the opposite header is cleared, name and
relative path are copied only when the template value is nonempty and either
organizeRoms is set or the target value is empty, the four whole-image
hashes are copied, and truncation optionally trims the segments. -/
def UpdateNESROM (targetRom templateRom : NESROM)
    (truncateRom organizeRoms enableInes : Bool) : Except String NESROM :=
  let afterHeader : Except String NESROM :=
    match templateRom.Header20 with
    | some h20 => .ok { targetRom with Header20 := some h20
                                       Header10 := none }
    | none =>
      if enableInes then
        match templateRom.Header10 with
        | some h10 => .ok { targetRom with Header10 := some h10
                                           Header20 := none }
        | none => .error "Unable to update ROM."
      else .error "Unable to update ROM."
  match afterHeader with
  | .error e => .error e
  | .ok r1 =>
    let r2 := if templateRom.Name ≠ "" ∧ (organizeRoms ∨ targetRom.Name = "") then
        { r1 with Name := templateRom.Name } else r1
    let r3 := if templateRom.RelativePath ≠ "" ∧
        (organizeRoms ∨ targetRom.RelativePath = "") then
        { r2 with RelativePath := templateRom.RelativePath } else r2
    let r4 := { r3 with SHA256 := templateRom.SHA256
                        SHA1 := templateRom.SHA1
                        MD5 := templateRom.MD5
                        CRC32 := templateRom.CRC32 }
    if truncateRom then .ok (TruncateROMDataAndSections r4) else .ok r4

end NESTool

namespace NESTool

/-- C4: SHA-256 keyed hits win outright, and earlier algorithms preempt
later ones: a SHA-1 keyed hit is returned whenever the SHA-256 stage is
disabled or produces nothing, regardless of what CRC-32 or any later stage
would match. -/
theorem MatchNESROM_cascade_priority (r : NESROM) (m : List (String × NESROM))
    (hashTypeTests : Nat) (enableInes : Bool) (T : NESROM) :
    (hashTypeTests &&& HASH_TYPE_SHA256 > 0 →
      lookupMap m ("SHA256:" ++ upperHex r.SHA256) = some T →
      MatchNESROM r m hashTypeTests enableInes = .ok T) ∧
    ((hashTypeTests &&& HASH_TYPE_SHA256 > 0 →
        lookupMap m ("SHA256:" ++ upperHex r.SHA256) = none ∧
        sha256StageFind enableInes m r = none) →
      hashTypeTests &&& HASH_TYPE_SHA1 > 0 →
      lookupMap m ("SHA1:" ++ upperHex r.SHA1) = some T →
      MatchNESROM r m hashTypeTests enableInes = .ok T) := by
  constructor
  · intro hen hkey
    simp [MatchNESROM, hen, hkey, Option.orElse]
  · intro hmiss hen1 hkey
    by_cases hen256 : hashTypeTests &&& HASH_TYPE_SHA256 > 0
    · obtain ⟨hm1, hm2⟩ := hmiss hen256
      simp [MatchNESROM, hen256, hen1, hm1, hm2, hkey, Option.orElse]
    · simp [MatchNESROM, hen256, hen1, hkey, Option.orElse]

/-- Witness for MatchNESROM_cascade_priority: a singleton library keyed by
the test ROM's SHA-256. -/
theorem MatchNESROM_cascade_priority_witness :
    ((16 : Nat) &&& HASH_TYPE_SHA256 > 0 ∧
      lookupMap [("SHA256:09", { Name := "tmpl" })]
        ("SHA256:" ++ upperHex ({ SHA256 := [9] } : NESROM).SHA256) =
        some { Name := "tmpl" }) ∧
    MatchNESROM { SHA256 := [9] } [("SHA256:09", { Name := "tmpl" })] 16 false =
      .ok { Name := "tmpl" } :=
  ⟨⟨by decide, by decide⟩,
    (MatchNESROM_cascade_priority { SHA256 := [9] } [("SHA256:09", { Name := "tmpl" })]
      16 false { Name := "tmpl" }).1 (by decide) (by decide)⟩

end NESTool

namespace NESTool

/-- C10 (implicit behavior, confirmed): the per-segment SHA-256 fallback
declares the CHR side trivially matched when both linear CHRROMSize fields
are 0 — the case for every CHR size stored in exponent/multiplier form —
so a template whose PRG SHA-256 agrees is returned even though the CHR
SHA-256 digests of the two records differ. -/
theorem MatchNESROM_chr_exponential_trivial_match
    (r t : NESROM) (rh th : NES20Header) (k : String) (hashTypeTests : Nat)
    (enableInes : Bool)
    (hrh : r.Header20 = some rh) (hth : t.Header20 = some th)
    (hen : hashTypeTests &&& HASH_TYPE_SHA256 > 0)
    (hmiss : k ≠ "SHA256:" ++ upperHex r.SHA256)
    (hprg : th.PRGROMSHA256 = rh.PRGROMSHA256)
    (htz : th.CHRROMSize = 0) (hrz : rh.CHRROMSize = 0)
    (_hchrdiff : th.CHRROMSHA256 ≠ rh.CHRROMSHA256) :
    MatchNESROM r [(k, t)] hashTypeTests enableInes = .ok t := by
  have hne : (k == "SHA256:" ++ upperHex r.SHA256) = false := beq_eq_false_iff_ne.mpr hmiss
  have hkey : lookupMap [(k, t)] ("SHA256:" ++ upperHex r.SHA256) = none := by
    simp [lookupMap, List.find?, hne]
  have hstage : sha256StageFind enableInes [(k, t)] r = some t := by
    simp [sha256StageFind, List.find?, segMatch, hth, hrh, hprg, htz, hrz]
  simp [MatchNESROM, hen, hkey, hstage, Option.orElse]

/-- Witness for MatchNESROM_chr_exponential_trivial_match: concrete records
with equal PRG SHA-256, both linear CHR sizes 0, and different CHR SHA-256. -/
theorem MatchNESROM_chr_exponential_trivial_match_witness :
    (({ Header20 := some { PRGROMSHA256 := [5], CHRROMSHA256 := [1] } } : NESROM).Header20 =
        some { PRGROMSHA256 := [5], CHRROMSHA256 := [1] } ∧
      (16 : Nat) &&& HASH_TYPE_SHA256 > 0 ∧
      ("X" : String) ≠ "SHA256:" ++
        upperHex ({ Header20 := some { PRGROMSHA256 := [5], CHRROMSHA256 := [1] } } : NESROM).SHA256 ∧
      ([1] : List Nat) ≠ [2]) ∧
    MatchNESROM { Header20 := some { PRGROMSHA256 := [5], CHRROMSHA256 := [1] } }
      [("X", { Name := "tmpl", Header20 := some { PRGROMSHA256 := [5], CHRROMSHA256 := [2] } })]
      16 false =
      .ok { Name := "tmpl", Header20 := some { PRGROMSHA256 := [5], CHRROMSHA256 := [2] } } :=
  ⟨⟨by decide, by decide, by decide, by decide⟩,
    MatchNESROM_chr_exponential_trivial_match
      { Header20 := some { PRGROMSHA256 := [5], CHRROMSHA256 := [1] } }
      { Name := "tmpl", Header20 := some { PRGROMSHA256 := [5], CHRROMSHA256 := [2] } }
      { PRGROMSHA256 := [5], CHRROMSHA256 := [1] }
      { PRGROMSHA256 := [5], CHRROMSHA256 := [2] }
      "X" 16 false (by decide) (by decide) (by decide) (by decide) (by decide) (by decide)
      (by decide) (by decide)⟩

end NESTool

namespace NESTool

/-- C5 amended: with truncation off and a NES 2.0 template header, the
updated record is exactly the target with the template's header installed
(taking the template's per-segment hashes with it), the iNES header
cleared, the four whole-image hashes copied, and name and relative path
copied only when the template value is nonempty and organize is on or the
target value is empty; every other field — payload, segments, size — is
untouched. -/
theorem UpdateNESROM_header20_characterization (target template : NESROM)
    (th : NES20Header) (hth : template.Header20 = some th)
    (organize enableInes : Bool) :
    UpdateNESROM target template false organize enableInes = .ok
      { target with
        Header20 := some th
        Header10 := none
        Name := if template.Name ≠ "" ∧ (organize ∨ target.Name = "") then
          template.Name else target.Name
        RelativePath := if template.RelativePath ≠ "" ∧
          (organize ∨ target.RelativePath = "") then
          template.RelativePath else target.RelativePath
        SHA256 := template.SHA256
        SHA1 := template.SHA1
        MD5 := template.MD5
        CRC32 := template.CRC32 } := by
  unfold UpdateNESROM
  rw [hth]
  dsimp only
  split_ifs <;> first | rfl | simp_all

/-- Witness for UpdateNESROM_header20_characterization at concrete records. -/
theorem UpdateNESROM_header20_characterization_witness :
    (({ Name := "t", Header20 := some { Mapper := 4 } } : NESROM).Header20 =
      some { Mapper := 4 }) ∧
    UpdateNESROM { Name := "orig", ROMData := some [1, 2] }
      { Name := "t", Header20 := some { Mapper := 4 } } false true false = .ok
      { Name := "t", ROMData := some [1, 2], Header20 := some { Mapper := 4 } } :=
  ⟨by decide, by
    have h := UpdateNESROM_header20_characterization
      { Name := "orig", ROMData := some [1, 2] }
      { Name := "t", Header20 := some { Mapper := 4 } }
      { Mapper := 4 } (by decide) true false
    rw [h]
    decide⟩

/-- C5, claim as stated, fails twice over: with organize on, a template
whose Name is empty does not overwrite the target's name, and the target's
per-segment hashes do not survive — the transplanted template header brings
the template's PRG SHA-256 with it. -/
theorem UpdateNESROM_claim_counterexample :
    (UpdateNESROM { Name := "orig", Header20 := some { PRGROMSHA256 := [1] } }
      { Name := "", Header20 := some { PRGROMSHA256 := [2] } } false true false).map
      (fun r => (r.Name, r.Header20.map (fun h => h.PRGROMSHA256))) =
      .ok ("orig", some [2]) ∧
    ("orig" : String) ≠ "" ∧
    some [2] ≠ (({ Name := "orig", Header20 := some { PRGROMSHA256 := [1] } } :
      NESROM).Header20.map (fun h => h.PRGROMSHA256)) := by decide

end NESTool

namespace NESTool

def FDS_EPOCH : Nat := 1925

/-- decodeBcdByte from FDSTool/FDSTool.go: packed BCD to a number. -/
def decodeBcdByte (bcdByte : Nat) : Nat :=
  10 * ((bcdByte &&& 0xf0) >>> 4) + (bcdByte &&& 0x0f)

/-- DecodeFDSDateFormat from FDSTool/FDSTool.go, modeled as the (year,
month, day) triple the Go code passes to time.Date: BCD-decoded bytes with
the Showa epoch, and years at least 83 shifted back by 25. -/
def DecodeFDSDateFormat (dateBytes : List Nat) : Nat × Nat × Nat :=
  let y0 := decodeBcdByte (dateBytes.getD 0 0)
  let year := if y0 < 83 then y0 + FDS_EPOCH else y0 + FDS_EPOCH - 25
  (year, decodeBcdByte (dateBytes.getD 1 0), decodeBcdByte (dateBytes.getD 2 0))

/-- C8: FDS dates decode each byte as packed BCD; the year is
1925 + y for BCD year digits y below 83 and 1925 + y - 25 from 83 on, and
the concrete bytes 0x83 0x12 0x25 give 1983-12-25. -/
theorem DecodeFDSDateFormat_epoch (b0 b1 b2 : Nat) :
    (decodeBcdByte b0 < 83 →
      DecodeFDSDateFormat [b0, b1, b2] =
        (1925 + decodeBcdByte b0, decodeBcdByte b1, decodeBcdByte b2)) ∧
    (83 ≤ decodeBcdByte b0 →
      DecodeFDSDateFormat [b0, b1, b2] =
        (1925 + decodeBcdByte b0 - 25, decodeBcdByte b1, decodeBcdByte b2)) ∧
    DecodeFDSDateFormat [0x83, 0x12, 0x25] = (1983, 12, 25) := by
  refine ⟨fun hy => ?_, fun hy => ?_, by decide⟩
  · simp [DecodeFDSDateFormat, FDS_EPOCH, hy, Nat.add_comm]
  · simp [DecodeFDSDateFormat, FDS_EPOCH, Nat.not_lt.mpr hy, Nat.add_comm]

/-- Witness for DecodeFDSDateFormat_epoch on both year regimes. -/
theorem DecodeFDSDateFormat_epoch_witness :
    (decodeBcdByte 0x82 < 83 ∧
      DecodeFDSDateFormat [0x82, 0x11, 0x05] =
        (1925 + decodeBcdByte 0x82, decodeBcdByte 0x11, decodeBcdByte 0x05)) ∧
    (83 ≤ decodeBcdByte 0x83 ∧
      DecodeFDSDateFormat [0x83, 0x12, 0x25] =
        (1925 + decodeBcdByte 0x83 - 25, decodeBcdByte 0x12, decodeBcdByte 0x25)) :=
  ⟨⟨by decide, (DecodeFDSDateFormat_epoch 0x82 0x11 0x05).1 (by decide)⟩,
    ⟨by decide, (DecodeFDSDateFormat_epoch 0x83 0x12 0x25).2.1 (by decide)⟩⟩

end NESTool

namespace NESTool

def FDS_SIDE_SIZE : Nat := 65500

def QD_SIDE_SIZE : Nat := 65536

def FDS_DISK_INFO_BLOCK : Nat := 1

def FDS_DISK_FILE_LAYOUT_BLOCK : Nat := 2

def FDS_FILE_HEADER_BLOCK : Nat := 3

def FDS_FILE_DATA_BLOCK : Nat := 4

/-- The bytes of the FDS_MAGIC string "*NINTENDO-HVC*". -/
def FDS_MAGIC_BYTES : List Nat := [42, 78, 73, 78, 84, 69, 78, 68, 79, 45, 72, 86, 67, 42]

/-- FDSFileData from FDSTool/FDSTool.go. -/
structure FDSFileData where
  Size : Nat := 0
  CRC32 : Nat := 0
  MD5 : List Nat := []
  SHA1 : List Nat := []
  SHA256 : List Nat := []
  FileData : List Nat := []
  FileDataCRC : Nat := 0
deriving DecidableEq

/-- FDSFile from FDSTool/FDSTool.go (FileName holds the raw bytes of the Go
string). -/
structure FDSFile where
  FileNumber : Nat := 0
  FileIdentificationCode : Nat := 0
  FileName : List Nat := []
  FileAddress : Nat := 0
  FileSize : Nat := 0
  FileType : Nat := 0
  FileMetadataCRC : Nat := 0
  FileData : FDSFileData := {}
deriving DecidableEq

/-- FDSSide from FDSTool/FDSTool.go. -/
structure FDSSide where
  Size : Nat := 0
  CRC32 : Nat := 0
  MD5 : List Nat := []
  SHA1 : List Nat := []
  SHA256 : List Nat := []
  ManufacturerCode : Nat := 0
  FDSGameName : List Nat := []
  GameType : Nat := 0
  RevisionNumber : Nat := 0
  SideNumber : Nat := 0
  DiskNumber : Nat := 0
  DiskType : Nat := 0
  Byte18 : Nat := 0
  BootFileID : Nat := 0
  Byte1A : Nat := 0
  Byte1B : Nat := 0
  Byte1C : Nat := 0
  Byte1D : Nat := 0
  Byte1E : Nat := 0
  ManufacturingDate : List Nat := []
  CountryCode : Nat := 0
  Byte23 : Nat := 0
  Byte24 : Nat := 0
  Byte25 : Nat := 0
  Byte26 : Nat := 0
  Byte27 : Nat := 0
  Byte28 : Nat := 0
  Byte29 : Nat := 0
  Byte2A : Nat := 0
  Byte2B : Nat := 0
  RewriteDate : List Nat := []
  Byte2F : Nat := 0
  Byte30 : Nat := 0
  DiskWriterSerialNumber : Nat := 0
  Byte33 : Nat := 0
  RewriteCount : Nat := 0
  ActualDiskSide : Nat := 0
  Byte36 : Nat := 0
  Price : Nat := 0
  DiskInfoCRC : Nat := 0
  FileTableCRC : Nat := 0
  SideFiles : List FDSFile := []
  UnallocatedSpace : List Nat := []
  UnallocatedSpaceOffset : Nat := 0
deriving DecidableEq

/-- Go slice indexing, with the out-of-range panic as an error. -/
def getE (l : List Nat) (i : Nat) : Except String Nat :=
  if i < l.length then .ok (byteAt l i) else .error "index out of range"

/-- The slice l[a:b]. -/
def slice (l : List Nat) (a b : Nat) : List Nat := (l.take b).drop a

/-- Go slicing l[a:b], with the out-of-range panic as an error. -/
def sliceE (l : List Nat) (a b : Nat) : Except String (List Nat) :=
  if a ≤ b ∧ b ≤ l.length then .ok (slice l a b) else .error "slice bounds out of range"

/-- A Go if-check that fails with an error. -/
def guardE (c : Prop) [Decidable c] (msg : String) : Except String Unit :=
  if c then .ok () else .error msg

/-- binary.LittleEndian.Uint16 on two bytes. -/
def le16 (b0 b1 : Nat) : Nat := b0 ||| (b1 <<< 8)

/-- binary.LittleEndian.PutUint16. -/
def putU16 (v : Nat) : List Nat := [v &&& 255, (v >>> 8) &&& 255]

/-- One bit step of the FDS block CRC shift register (uint16). -/
def fdsCrcBit (crc bit : Nat) : Nat :=
  let crcNext := (crc >>> 1) ||| (bit <<< 15)
  if crc &&& 1 = 1 then crcNext ^^^ 0x8408 else crcNext

/-- One byte (eight bit steps, least significant bit first). -/
def fdsCrcByte (crc b : Nat) : Nat :=
  (List.range 8).foldl (fun c i => fdsCrcBit c ((b >>> i) &&& 1)) crc

/-- The CRC value of GenerateFDSBlockCRC: the block with its last two bytes
zeroed, folded through the shift register from 0x8000. -/
def fdsBlockCrc (block : List Nat) : Nat :=
  ((block.take (block.length - 2)) ++ [0, 0]).foldl fdsCrcByte 0x8000

/-- GenerateFDSBlockCRC from FDSTool/FDSTool.go. -/
def GenerateFDSBlockCRC (rawBlock : List Nat) : Except String Nat :=
  if rawBlock.length < 3 then .error "Data too small to be a valid FDS block."
  else .ok (fdsBlockCrc rawBlock)

end NESTool

namespace NESTool

/-- The per-file loop of DecodeFDSSide, structural on the remaining file
count.  currentIndex is a Go uint16, so every index computation is reduced
modulo 65536. -/
def decodeFDSFiles (H : HashModel) (inputSide : List Nat) (checksumOffset : Nat)
    (readChecksums generateChecksums : Bool) :
    Nat → Nat → Except String (List FDSFile × Nat)
  | 0, idx => .ok ([], idx)
  | n + 1, idx => do
    let marker ← getE inputSide idx
    let _ ← guardE (marker = FDS_FILE_HEADER_BLOCK) "Unable to read file header."
    let fileNumber ← getE inputSide ((idx + 1) % 65536)
    let fileIdCode ← getE inputSide ((idx + 2) % 65536)
    let fname ← sliceE inputSide ((idx + 3) % 65536) ((idx + 11) % 65536)
    let a0 ← getE inputSide ((idx + 11) % 65536)
    let a1 ← getE inputSide ((idx + 12) % 65536)
    let s0 ← getE inputSide ((idx + 13) % 65536)
    let s1 ← getE inputSide ((idx + 14) % 65536)
    let ftype ← getE inputSide ((idx + 15) % 65536)
    let fsize := le16 s0 s1
    let metaCRCRead ← if readChecksums then do
        let m0 ← getE inputSide ((idx + 16) % 65536)
        let m1 ← getE inputSide ((idx + 17) % 65536)
        pure (le16 m0 m1)
      else pure 0
    let metaCRC ← if generateChecksums then do
        let metaBytes ← sliceE inputSide idx ((idx + 16) % 65536)
        GenerateFDSBlockCRC (metaBytes ++ [0, 0])
      else pure metaCRCRead
    let dmarker ← getE inputSide ((idx + 16 + checksumOffset) % 65536)
    let _ ← guardE (dmarker = FDS_FILE_DATA_BLOCK) "Unable to read file data."
    let fdata ← sliceE inputSide ((idx + 17 + checksumOffset) % 65536)
      ((idx + 17 + fsize + checksumOffset) % 65536)
    let dataCRCRead ← if readChecksums then do
        let d0 ← getE inputSide ((idx + 17 + fsize + checksumOffset) % 65536)
        let d1 ← getE inputSide ((idx + 17 + fsize + checksumOffset + 1) % 65536)
        pure (le16 d0 d1)
      else pure 0
    let dataCRC ← if generateChecksums then
        GenerateFDSBlockCRC (FDS_FILE_DATA_BLOCK :: fdata ++ [0, 0])
      else pure dataCRCRead
    let fd : FDSFileData := { Size := fdata.length
                              CRC32 := H.crc32 fdata
                              MD5 := H.md5 fdata
                              SHA1 := H.sha1 fdata
                              SHA256 := H.sha256 fdata
                              FileData := fdata
                              FileDataCRC := dataCRC }
    let f : FDSFile := { FileNumber := fileNumber
                         FileIdentificationCode := fileIdCode
                         FileName := fname
                         FileAddress := le16 a0 a1
                         FileSize := fsize
                         FileType := ftype
                         FileMetadataCRC := metaCRC
                         FileData := fd }
    match decodeFDSFiles H inputSide checksumOffset readChecksums generateChecksums n
        ((idx + 15 + 2 + fsize + 2 * checksumOffset) % 65536) with
    | .error e => .error e
    | .ok (fs, e) => .ok (f :: fs, e)

/-- DecodeFDSSide from FDSTool/FDSTool.go.  Byte strings are byte lists;
hashes come from the HashModel; Go panics on out-of-range accesses are
errors.  The FileTableCRC read when checksums are detected takes the two
bytes at 0x38+offset — the file-layout marker and count, as in the Go
source. -/
def DecodeFDSSide (H : HashModel) (inputSide : List Nat) (generateChecksums : Bool) :
    Except String FDSSide := do
  let b0 ← getE inputSide 0x00
  let _ ← guardE (b0 = FDS_DISK_INFO_BLOCK) "Unable to decode header for FDS side."
  let manufacturerCode ← getE inputSide 0x0f
  let gameName ← sliceE inputSide 0x10 0x13
  let gameType ← getE inputSide 0x13
  let revisionNumber ← getE inputSide 0x14
  let sideNumber ← getE inputSide 0x15
  let diskNumber ← getE inputSide 0x16
  let diskType ← getE inputSide 0x17
  let byte18 ← getE inputSide 0x18
  let bootFileID ← getE inputSide 0x19
  let byte1A ← getE inputSide 0x1a
  let byte1B ← getE inputSide 0x1b
  let byte1C ← getE inputSide 0x1c
  let byte1D ← getE inputSide 0x1d
  let byte1E ← getE inputSide 0x1e
  let manufacturingDate ← sliceE inputSide 0x1f 0x22
  let countryCode ← getE inputSide 0x22
  let byte23 ← getE inputSide 0x23
  let byte24 ← getE inputSide 0x24
  let byte25 ← getE inputSide 0x25
  let byte26 ← getE inputSide 0x26
  let byte27 ← getE inputSide 0x27
  let byte28 ← getE inputSide 0x28
  let byte29 ← getE inputSide 0x29
  let byte2A ← getE inputSide 0x2a
  let byte2B ← getE inputSide 0x2b
  let rewriteDate ← sliceE inputSide 0x2c 0x2f
  let byte2F ← getE inputSide 0x2f
  let byte30 ← getE inputSide 0x30
  let serial0 ← getE inputSide 0x31
  let serial1 ← getE inputSide 0x32
  let byte33 ← getE inputSide 0x33
  let rewriteCount ← getE inputSide 0x34
  let actualDiskSide ← getE inputSide 0x35
  let byte36 ← getE inputSide 0x36
  let price ← getE inputSide 0x37
  let diskInfoBlock ← sliceE inputSide 0x00 0x38
  let testCrc ← GenerateFDSBlockCRC (diskInfoBlock ++ [0, 0])
  let c0 ← getE inputSide 0x38
  let c1 ← getE inputSide 0x39
  let c2 ← getE inputSide 0x3a
  let rcPair : Bool × Nat :=
    if le16 c0 c1 = testCrc ∧ c2 = 1 then (true, testCrc)
    else if c0 = 0 ∧ c1 = 0 ∧ c2 = 1 then
      (true, if generateChecksums then testCrc else le16 c0 c1)
    else if generateChecksums then (false, testCrc) else (false, 0)
  let readChecksums := rcPair.1
  let diskInfoCRC := rcPair.2
  let checksumOffset : Nat := if readChecksums then 2 else 0
  let m ← getE inputSide (0x38 + checksumOffset)
  let _ ← guardE (m = FDS_DISK_FILE_LAYOUT_BLOCK)
    "Unable to determine number of files on FDS side."
  let numberOfFiles ← getE inputSide (0x39 + checksumOffset)
  let fileTableCRCRead := if readChecksums then le16 m numberOfFiles else 0
  let fileTableCRC ← if generateChecksums then
      GenerateFDSBlockCRC [m, numberOfFiles, 0, 0]
    else pure fileTableCRCRead
  let res ← decodeFDSFiles H inputSide checksumOffset readChecksums generateChecksums
    numberOfFiles ((0x3a + 2 * checksumOffset) % 65536)
  let files := res.1
  let endIdx := res.2
  let tailPair : List Nat × Nat ←
    if endIdx < FDS_SIDE_SIZE then do
      let t ← sliceE inputSide endIdx FDS_SIDE_SIZE
      pure (t, endIdx)
    else pure ([], 0)
  pure { ManufacturerCode := manufacturerCode
         FDSGameName := gameName
         GameType := gameType
         RevisionNumber := revisionNumber
         SideNumber := sideNumber
         DiskNumber := diskNumber
         DiskType := diskType
         Byte18 := byte18
         BootFileID := bootFileID
         Byte1A := byte1A
         Byte1B := byte1B
         Byte1C := byte1C
         Byte1D := byte1D
         Byte1E := byte1E
         ManufacturingDate := manufacturingDate
         CountryCode := countryCode
         Byte23 := byte23
         Byte24 := byte24
         Byte25 := byte25
         Byte26 := byte26
         Byte27 := byte27
         Byte28 := byte28
         Byte29 := byte29
         Byte2A := byte2A
         Byte2B := byte2B
         RewriteDate := rewriteDate
         Byte2F := byte2F
         Byte30 := byte30
         DiskWriterSerialNumber := le16 serial0 serial1
         Byte33 := byte33
         RewriteCount := rewriteCount
         ActualDiskSide := actualDiskSide
         Byte36 := byte36
         Price := price
         DiskInfoCRC := diskInfoCRC
         FileTableCRC := fileTableCRC
         SideFiles := files
         UnallocatedSpace := tailPair.1
         UnallocatedSpaceOffset := tailPair.2 }

end NESTool

namespace NESTool

/-- The info-block bytes EncodeFDSSide emits: marker, the FDS_MAGIC bytes,
then the side's metadata fields. -/
def fdsInfoSlice (s : FDSSide) : List Nat :=
  [FDS_DISK_INFO_BLOCK] ++ FDS_MAGIC_BYTES ++ [s.ManufacturerCode] ++ s.FDSGameName ++
  [s.GameType, s.RevisionNumber, s.SideNumber, s.DiskNumber, s.DiskType, s.Byte18,
   s.BootFileID, s.Byte1A, s.Byte1B, s.Byte1C, s.Byte1D, s.Byte1E] ++
  s.ManufacturingDate ++
  [s.CountryCode, s.Byte23, s.Byte24, s.Byte25, s.Byte26, s.Byte27, s.Byte28, s.Byte29,
   s.Byte2A, s.Byte2B] ++
  s.RewriteDate ++ [s.Byte2F, s.Byte30] ++ putU16 s.DiskWriterSerialNumber ++
  [s.Byte33, s.RewriteCount, s.ActualDiskSide, s.Byte36, s.Price]

/-- The bytes EncodeFDSSide emits for one file: header block and data
block, each followed by its CRC when checksums are written. -/
def encodeFDSFileBytes (f : FDSFile) (writeChecksums generateChecksums : Bool) :
    Except String (List Nat) := do
  let headerSlice := [FDS_FILE_HEADER_BLOCK, f.FileNumber, f.FileIdentificationCode] ++
    f.FileName ++ putU16 f.FileAddress ++ putU16 f.FileSize ++ [f.FileType]
  let headerSlice2 ← if writeChecksums then do
      let c ← if generateChecksums then
          match GenerateFDSBlockCRC (headerSlice ++ [0, 0]) with
          | .error _ => Except.error "Unable to generate disk info CRC."
          | .ok v => Except.ok v
        else pure f.FileMetadataCRC
      pure (headerSlice ++ putU16 c)
    else pure headerSlice
  let dataSlice := FDS_FILE_DATA_BLOCK :: f.FileData.FileData
  let dataSlice2 ← if writeChecksums then do
      let c ← if generateChecksums then
          match GenerateFDSBlockCRC (dataSlice ++ [0, 0]) with
          | .error _ => Except.error "Unable to generate disk info CRC."
          | .ok v => Except.ok v
        else pure f.FileData.FileDataCRC
      pure (dataSlice ++ putU16 c)
    else pure dataSlice
  pure (headerSlice2 ++ dataSlice2)

/-- The file loop of EncodeFDSSide. -/
def encodeFDSFilesBytes (files : List FDSFile) (w g : Bool) : Except String (List Nat) :=
  match files with
  | [] => .ok []
  | f :: fs => do
    let b ← encodeFDSFileBytes f w g
    let rest ← encodeFDSFilesBytes fs w g
    pure (b ++ rest)

/-- EncodeFDSSide from FDSTool/FDSTool.go: info block, layout block, the
files, then gap fill or tail trim against the recorded unallocated-space
offset, the unallocated bytes themselves, and final zero-padding or
truncation to the FDS (65500) or QD (65536) side size.  All offset
arithmetic on the emitted slice is Go uint16 arithmetic. -/
def EncodeFDSSide (inputSide : FDSSide) (writeChecksums generateChecksums writeQd : Bool) :
    Except String (List Nat) := do
  let base := fdsInfoSlice inputSide
  let base2 ← if writeChecksums then do
      let c ← if generateChecksums then
          match GenerateFDSBlockCRC (base ++ [0, 0]) with
          | .error _ => Except.error "Unable to generate disk info CRC."
          | .ok v => Except.ok v
        else pure inputSide.DiskInfoCRC
      pure (base ++ putU16 c)
    else pure base
  let layout := [FDS_DISK_FILE_LAYOUT_BLOCK, inputSide.SideFiles.length % 256]
  let layout2 ← if writeChecksums then do
      let c ← if generateChecksums then
          match GenerateFDSBlockCRC (layout ++ [0, 0]) with
          | .error _ => Except.error "Unable to generate disk info CRC."
          | .ok v => Except.ok v
        else pure inputSide.FileTableCRC
      pure (layout ++ putU16 c)
    else pure layout
  let filesBytes ← encodeFDSFilesBytes inputSide.SideFiles writeChecksums generateChecksums
  let sideSlice := base2 ++ layout2 ++ filesBytes
  let tempLen := sideSlice.length % 65536
  let sideSlice2 :=
    if tempLen < inputSide.UnallocatedSpaceOffset then
      sideSlice ++ List.replicate (inputSide.UnallocatedSpaceOffset - tempLen) 0 ++
        inputSide.UnallocatedSpace
    else if tempLen > inputSide.UnallocatedSpaceOffset then
      if tempLen < (inputSide.UnallocatedSpaceOffset +
          inputSide.UnallocatedSpace.length % 65536) % 65536 then
        sideSlice ++
          inputSide.UnallocatedSpace.drop (tempLen - inputSide.UnallocatedSpaceOffset)
      else sideSlice ++ inputSide.UnallocatedSpace
    else sideSlice ++ inputSide.UnallocatedSpace
  let target := if writeQd then QD_SIDE_SIZE else FDS_SIDE_SIZE
  let final :=
    if sideSlice2.length < target then
      sideSlice2 ++ List.replicate (target - sideSlice2.length) 0
    else if sideSlice2.length > target then sideSlice2.take target
    else sideSlice2
  pure final

end NESTool

namespace NESTool

theorem or256 (b0 m : Nat) (h : b0 < 256) : b0 ||| 256 * m = b0 + 256 * m := by
  apply Nat.eq_of_testBit_eq
  intro k
  rw [Nat.testBit_lor]
  rcases Nat.lt_or_ge k 8 with hk | hk
  · have e1 : (256 * m).testBit k = false := by
      rw [Nat.testBit_to_div_mod]
      interval_cases k <;> simp <;> omega
    have e2 : (b0 + 256 * m).testBit k = b0.testBit k := by
      rw [Nat.testBit_to_div_mod, Nat.testBit_to_div_mod]
      interval_cases k <;> simp <;> omega
    rw [e1, e2, Bool.or_false]
  · obtain ⟨j, rfl⟩ : ∃ j, k = 8 + j := ⟨k - 8, by omega⟩
    have hle : (256 : Nat) ≤ 2 ^ (8 + j) := by
      calc (256 : Nat) = 2 ^ 8 := by norm_num
        _ ≤ 2 ^ (8 + j) := Nat.pow_le_pow_right (by norm_num) (by omega)
    have e1 : b0.testBit (8 + j) = false :=
      Nat.testBit_eq_false_of_lt (lt_of_lt_of_le h hle)
    have key : ∀ x : Nat, x < 256 → (x + 256 * m) / 2 ^ (8 + j) = m / 2 ^ j := by
      intro x hx
      rw [Nat.pow_add, show (2:Nat) ^ 8 = 256 by norm_num, ← Nat.div_div_eq_div_mul,
        Nat.add_mul_div_left x m (by norm_num), Nat.div_eq_of_lt hx, Nat.zero_add]
    have e2 : (256 * m).testBit (8 + j) = m.testBit j := by
      rw [Nat.testBit_to_div_mod, Nat.testBit_to_div_mod,
        show 256 * m = 0 + 256 * m by omega, key 0 (by norm_num)]
    have e3 : (b0 + 256 * m).testBit (8 + j) = m.testBit j := by
      rw [Nat.testBit_to_div_mod, Nat.testBit_to_div_mod, key b0 h]
    rw [e1, e2, e3, Bool.false_or]

theorem le16_eq (b0 b1 : Nat) (h : b0 < 256) : le16 b0 b1 = b0 + 256 * b1 := by
  unfold le16
  rw [Nat.shiftLeft_eq, show (2:Nat) ^ 8 = 256 by norm_num, Nat.mul_comm b1 256]
  exact or256 b0 b1 h

theorem le16_lt (b0 b1 : Nat) (h0 : b0 < 256) (h1 : b1 < 256) : le16 b0 b1 < 65536 := by
  rw [le16_eq b0 b1 h0]; omega

theorem putU16_le16 (b0 b1 : Nat) (h0 : b0 < 256) (h1 : b1 < 256) :
    putU16 (le16 b0 b1) = [b0, b1] := by
  rw [le16_eq b0 b1 h0]
  unfold putU16
  rw [mask255_eq_mod, mask255_eq_mod, Nat.shiftRight_eq_div_pow]
  norm_num
  constructor <;> omega

theorem slice_nil (l : List Nat) (a : Nat) : slice l a a = [] := by
  apply List.drop_eq_nil_of_le
  rw [List.length_take]
  omega

theorem slice_length (l : List Nat) (a b : Nat) (hb : b ≤ l.length) (hab : a ≤ b) :
    (slice l a b).length = b - a := by
  unfold slice
  rw [List.length_drop, List.length_take]
  omega

theorem slice_append (l : List Nat) (a b c : Nat) (hab : a ≤ b) (hbc : b ≤ c) :
    slice l a b ++ slice l b c = slice l a c := by
  unfold slice
  rw [List.drop_take, List.drop_take, List.drop_take]
  have hdrop : l.drop b = (l.drop a).drop (b - a) := by
    rw [List.drop_drop]
    congr 1
    omega
  rw [hdrop, ← List.take_add]
  congr 1
  omega

theorem slice_split (l : List Nat) (a b c : Nat) (hab : a ≤ b) (hbc : b ≤ c) :
    slice l a c = slice l a b ++ slice l b c := (slice_append l a b c hab hbc).symm

theorem slice_one (l : List Nat) (a b : Nat) (hb : b = a + 1) (ha : a < l.length) :
    slice l a b = [byteAt l a] := by
  subst hb
  unfold slice byteAt
  rw [List.drop_take, show a + 1 - a = 1 by omega, List.take_one_drop_eq_of_lt_length ha]
  simp [List.getD_eq_getElem?_getD, List.getElem?_eq_getElem ha]

theorem slice_all (l : List Nat) (n : Nat) (h : l.length ≤ n) : slice l 0 n = l := by
  unfold slice
  rw [List.drop_zero, List.take_of_length_le h]


theorem getE_ok (l : List Nat) (i : Nat) (h : i < l.length) : getE l i = .ok (byteAt l i) := by
  unfold getE
  rw [if_pos h]

theorem sliceE_ok (l : List Nat) (a b : Nat) (h : a ≤ b ∧ b ≤ l.length) :
    sliceE l a b = .ok (slice l a b) := by
  unfold sliceE
  rw [if_pos h]

theorem guardE_ok (c : Prop) [Decidable c] (msg : String) (h : c) : guardE c msg = .ok () := by
  unfold guardE
  rw [if_pos h]

end NESTool

namespace NESTool

/-- The FDSFile record one iteration of decodeFDSFiles builds at index idx
in the no-checksum layout (a proof artifact, not a source function). -/
def fdsFileAt (H : HashModel) (F : List Nat) (g : Bool) (idx : Nat) : FDSFile :=
  let fsz := le16 (byteAt F (idx + 13)) (byteAt F (idx + 14))
  let fdata := slice F (idx + 17) (idx + 17 + fsz)
  { FileNumber := byteAt F (idx + 1)
    FileIdentificationCode := byteAt F (idx + 2)
    FileName := slice F (idx + 3) (idx + 11)
    FileAddress := le16 (byteAt F (idx + 11)) (byteAt F (idx + 12))
    FileSize := fsz
    FileType := byteAt F (idx + 15)
    FileMetadataCRC := if g then fdsBlockCrc (slice F idx (idx + 16) ++ [0, 0]) else 0
    FileData := { Size := fdata.length
                  CRC32 := H.crc32 fdata
                  MD5 := H.md5 fdata
                  SHA1 := H.sha1 fdata
                  SHA256 := H.sha256 fdata
                  FileData := fdata
                  FileDataCRC := if g then
                    fdsBlockCrc (FDS_FILE_DATA_BLOCK :: fdata ++ [0, 0]) else 0 } }

theorem GenerateFDSBlockCRC_ok (l : List Nat) (h : 3 ≤ l.length) :
    GenerateFDSBlockCRC l = .ok (fdsBlockCrc l) := by
  unfold GenerateFDSBlockCRC
  rw [if_neg (by omega)]

theorem decodeFDSFiles_succ (H : HashModel) (F : List Nat) (g : Bool) (n idx : Nat)
    (fs : List FDSFile) (e : Nat)
    (hlen : 65500 ≤ F.length)
    (hm3 : byteAt F idx = 3)
    (hm4 : byteAt F (idx + 16) = 4)
    (hfit : idx + 17 + le16 (byteAt F (idx + 13)) (byteAt F (idx + 14)) ≤ 65500)
    (hrec : decodeFDSFiles H F 0 false g n
      (idx + 17 + le16 (byteAt F (idx + 13)) (byteAt F (idx + 14))) = .ok (fs, e)) :
    decodeFDSFiles H F 0 false g (n + 1) idx = .ok (fdsFileAt H F g idx :: fs, e) := by
  have hg0 : getE F idx = .ok (byteAt F idx) := getE_ok F idx (by omega)
  have hg1 : getE F ((idx + 1) % 65536) = .ok (byteAt F (idx + 1)) := by
    rw [Nat.mod_eq_of_lt (by omega)]
    exact getE_ok F _ (by omega)
  have hg2 : getE F ((idx + 2) % 65536) = .ok (byteAt F (idx + 2)) := by
    rw [Nat.mod_eq_of_lt (by omega)]
    exact getE_ok F _ (by omega)
  have hgn : sliceE F ((idx + 3) % 65536) ((idx + 11) % 65536) =
      .ok (slice F (idx + 3) (idx + 11)) := by
    rw [Nat.mod_eq_of_lt (by omega), Nat.mod_eq_of_lt (by omega)]
    exact sliceE_ok F _ _ ⟨by omega, by omega⟩
  have hg11 : getE F ((idx + 11) % 65536) = .ok (byteAt F (idx + 11)) := by
    rw [Nat.mod_eq_of_lt (by omega)]
    exact getE_ok F _ (by omega)
  have hg12 : getE F ((idx + 12) % 65536) = .ok (byteAt F (idx + 12)) := by
    rw [Nat.mod_eq_of_lt (by omega)]
    exact getE_ok F _ (by omega)
  have hg13 : getE F ((idx + 13) % 65536) = .ok (byteAt F (idx + 13)) := by
    rw [Nat.mod_eq_of_lt (by omega)]
    exact getE_ok F _ (by omega)
  have hg14 : getE F ((idx + 14) % 65536) = .ok (byteAt F (idx + 14)) := by
    rw [Nat.mod_eq_of_lt (by omega)]
    exact getE_ok F _ (by omega)
  have hg15 : getE F ((idx + 15) % 65536) = .ok (byteAt F (idx + 15)) := by
    rw [Nat.mod_eq_of_lt (by omega)]
    exact getE_ok F _ (by omega)
  have hg16 : getE F ((idx + 16 + 0) % 65536) = .ok (byteAt F (idx + 16)) := by
    rw [Nat.add_zero, Nat.mod_eq_of_lt (by omega)]
    exact getE_ok F _ (by omega)
  have hmeta : sliceE F idx ((idx + 16) % 65536) = .ok (slice F idx (idx + 16)) := by
    rw [Nat.mod_eq_of_lt (by omega)]
    exact sliceE_ok F _ _ ⟨by omega, by omega⟩
  have hdata : sliceE F ((idx + 17 + 0) % 65536)
      ((idx + 17 + le16 (byteAt F (idx + 13)) (byteAt F (idx + 14)) + 0) % 65536) =
      .ok (slice F (idx + 17) (idx + 17 + le16 (byteAt F (idx + 13)) (byteAt F (idx + 14)))) := by
    rw [Nat.add_zero, Nat.add_zero, Nat.mod_eq_of_lt (by omega), Nat.mod_eq_of_lt (by omega)]
    exact sliceE_ok F _ _ ⟨by omega, by omega⟩
  have hrec' : decodeFDSFiles H F 0 false g n
      ((idx + 15 + 2 + le16 (byteAt F (idx + 13)) (byteAt F (idx + 14)) + 2 * 0) % 65536) =
      .ok (fs, e) := by
    rw [Nat.mul_zero, Nat.add_zero, Nat.mod_eq_of_lt (by omega)]
    rw [show idx + 15 + 2 + le16 (byteAt F (idx + 13)) (byteAt F (idx + 14)) =
      idx + 17 + le16 (byteAt F (idx + 13)) (byteAt F (idx + 14)) by omega]
    exact hrec
  have hgm3 : guardE (3 = FDS_FILE_HEADER_BLOCK) "Unable to read file header." = .ok () :=
    guardE_ok _ _ rfl
  have hgm4 : guardE (4 = FDS_FILE_DATA_BLOCK) "Unable to read file data." = .ok () :=
    guardE_ok _ _ rfl
  cases g
  · simp only [decodeFDSFiles, bind, Except.bind, hg0, hm3, hgm3, hg1, hg2, hgn,
      hg11, hg12, hg13, hg14, hg15, Bool.false_eq_true, if_false, pure, Except.pure, hg16,
      hm4, hgm4, hdata, hrec', fdsFileAt]
  · have hcrc1 : GenerateFDSBlockCRC (slice F idx (idx + 16) ++ [0, 0]) =
        .ok (fdsBlockCrc (slice F idx (idx + 16) ++ [0, 0])) :=
      GenerateFDSBlockCRC_ok _ (by
        rw [List.length_append, slice_length F idx (idx + 16) (by omega) (by omega)]
        omega)
    have hcrc2 : GenerateFDSBlockCRC (FDS_FILE_DATA_BLOCK ::
        slice F (idx + 17) (idx + 17 + le16 (byteAt F (idx + 13)) (byteAt F (idx + 14))) ++
        [0, 0]) = .ok (fdsBlockCrc (FDS_FILE_DATA_BLOCK ::
        slice F (idx + 17) (idx + 17 + le16 (byteAt F (idx + 13)) (byteAt F (idx + 14))) ++
        [0, 0])) :=
      GenerateFDSBlockCRC_ok _ (by simp)
    simp only [decodeFDSFiles, bind, Except.bind, hg0, hm3, hgm3, hg1, hg2, hgn,
      hg11, hg12, hg13, hg14, hg15, Bool.false_eq_true, if_false, if_true, pure, Except.pure,
      hmeta, hcrc1, hcrc2, hg16, hm4, hgm4, hdata, hrec', fdsFileAt]

end NESTool

namespace NESTool

theorem encodeFDSFileBytes_noCrc (f : FDSFile) (g : Bool) :
    encodeFDSFileBytes f false g =
      .ok ([FDS_FILE_HEADER_BLOCK, f.FileNumber, f.FileIdentificationCode] ++ f.FileName ++
        putU16 f.FileAddress ++ putU16 f.FileSize ++ [f.FileType] ++
        (FDS_FILE_DATA_BLOCK :: f.FileData.FileData)) := by
  simp only [encodeFDSFileBytes, Bool.false_eq_true, if_false, bind, Except.bind, pure,
    Except.pure]

/-- Well-formedness of the file region at idx: each file starts with the
header-block marker, has the data-block marker sixteen bytes in, and ends at
or before the FDS side size (a proof artifact describing the inputs on which
the file loop is lossless, not a source function). -/
def filesWF (F : List Nat) : Nat → Nat → Bool
  | 0, _ => true
  | n + 1, idx =>
    decide (byteAt F idx = 3) && decide (byteAt F (idx + 16) = 4) &&
    decide (idx + 17 + le16 (byteAt F (idx + 13)) (byteAt F (idx + 14)) ≤ 65500) &&
    filesWF F n (idx + 17 + le16 (byteAt F (idx + 13)) (byteAt F (idx + 14)))

theorem encode_fdsFileAt (H : HashModel) (F : List Nat) (g : Bool) (idx : Nat)
    (hlen : 65500 ≤ F.length) (hvals : ∀ x ∈ F, x < 256)
    (hm3 : byteAt F idx = 3) (hm4 : byteAt F (idx + 16) = 4)
    (hfit : idx + 17 + le16 (byteAt F (idx + 13)) (byteAt F (idx + 14)) ≤ 65500) :
    encodeFDSFileBytes (fdsFileAt H F g idx) false g =
      .ok (slice F idx (idx + 17 + le16 (byteAt F (idx + 13)) (byteAt F (idx + 14)))) := by
  rw [encodeFDSFileBytes_noCrc]
  congr 1
  show [FDS_FILE_HEADER_BLOCK, byteAt F (idx + 1), byteAt F (idx + 2)] ++
    slice F (idx + 3) (idx + 11) ++
    putU16 (le16 (byteAt F (idx + 11)) (byteAt F (idx + 12))) ++
    putU16 (le16 (byteAt F (idx + 13)) (byteAt F (idx + 14))) ++ [byteAt F (idx + 15)] ++
    (FDS_FILE_DATA_BLOCK ::
      slice F (idx + 17) (idx + 17 + le16 (byteAt F (idx + 13)) (byteAt F (idx + 14)))) = _
  rw [putU16_le16 _ _ (byteAt_lt F hvals (idx + 11)) (byteAt_lt F hvals (idx + 12)),
    putU16_le16 _ _ (byteAt_lt F hvals (idx + 13)) (byteAt_lt F hvals (idx + 14))]
  rw [slice_split F idx (idx + 1) (idx + 17 + le16 (byteAt F (idx + 13)) (byteAt F (idx + 14))) (by omega) (by omega),
    slice_split F (idx + 1) (idx + 2) (idx + 17 + le16 (byteAt F (idx + 13)) (byteAt F (idx + 14))) (by omega) (by omega),
    slice_split F (idx + 2) (idx + 3) (idx + 17 + le16 (byteAt F (idx + 13)) (byteAt F (idx + 14))) (by omega) (by omega),
    slice_split F (idx + 3) (idx + 11) (idx + 17 + le16 (byteAt F (idx + 13)) (byteAt F (idx + 14))) (by omega) (by omega),
    slice_split F (idx + 11) (idx + 12) (idx + 17 + le16 (byteAt F (idx + 13)) (byteAt F (idx + 14))) (by omega) (by omega),
    slice_split F (idx + 12) (idx + 13) (idx + 17 + le16 (byteAt F (idx + 13)) (byteAt F (idx + 14))) (by omega) (by omega),
    slice_split F (idx + 13) (idx + 14) (idx + 17 + le16 (byteAt F (idx + 13)) (byteAt F (idx + 14))) (by omega) (by omega),
    slice_split F (idx + 14) (idx + 15) (idx + 17 + le16 (byteAt F (idx + 13)) (byteAt F (idx + 14))) (by omega) (by omega),
    slice_split F (idx + 15) (idx + 16) (idx + 17 + le16 (byteAt F (idx + 13)) (byteAt F (idx + 14))) (by omega) (by omega),
    slice_split F (idx + 16) (idx + 17) (idx + 17 + le16 (byteAt F (idx + 13)) (byteAt F (idx + 14))) (by omega) (by omega)]
  rw [slice_one F idx (idx + 1) rfl (by omega),
    slice_one F (idx + 1) (idx + 2) rfl (by omega),
    slice_one F (idx + 2) (idx + 3) rfl (by omega),
    slice_one F (idx + 11) (idx + 12) rfl (by omega),
    slice_one F (idx + 12) (idx + 13) rfl (by omega),
    slice_one F (idx + 13) (idx + 14) rfl (by omega),
    slice_one F (idx + 14) (idx + 15) rfl (by omega),
    slice_one F (idx + 15) (idx + 16) rfl (by omega),
    slice_one F (idx + 16) (idx + 17) (by omega) (by omega)]
  rw [hm3, hm4]
  simp [FDS_FILE_HEADER_BLOCK, FDS_FILE_DATA_BLOCK]

theorem decodeFDSFiles_roundtrip (H : HashModel) (F : List Nat) (g : Bool)
    (hlen : 65500 ≤ F.length) (hvals : ∀ x ∈ F, x < 256) :
    ∀ n idx, filesWF F n idx = true → idx ≤ 65500 →
    ∃ files endIdx, decodeFDSFiles H F 0 false g n idx = .ok (files, endIdx) ∧
      encodeFDSFilesBytes files false g = .ok (slice F idx endIdx) ∧
      idx ≤ endIdx ∧ endIdx ≤ 65500 ∧ files.length = n := by
  intro n
  induction n with
  | zero =>
    intro idx _ hid
    exact ⟨[], idx, rfl, by simp [encodeFDSFilesBytes, slice_nil], Nat.le_refl idx, hid, rfl⟩
  | succ n ih =>
    intro idx hwf hid
    simp only [filesWF, Bool.and_eq_true, decide_eq_true_eq] at hwf
    obtain ⟨⟨⟨hm3, hm4⟩, hfit⟩, hwfrec⟩ := hwf
    obtain ⟨fs, e, hdec, henc, hle1, hle2, hfsn⟩ := ih
      (idx + 17 + le16 (byteAt F (idx + 13)) (byteAt F (idx + 14))) hwfrec (by omega)
    refine ⟨fdsFileAt H F g idx :: fs, e,
      decodeFDSFiles_succ H F g n idx fs e hlen hm3 hm4 hfit hdec, ?_, by omega, hle2,
      by simp [hfsn]⟩
    simp only [encodeFDSFilesBytes, bind, Except.bind,
      encode_fdsFileAt H F g idx hlen hvals hm3 hm4 hfit, henc, pure, Except.pure]
    rw [slice_append F idx _ e (by omega) hle1]

end NESTool

namespace NESTool

theorem fds_info_eq (F : List Nat) (hlen : 65500 <= F.length) (hvals : forall x, x ∈ F -> x < 256)
    (hb0 : byteAt F 0 = 1) (hmagic : slice F 1 15 = FDS_MAGIC_BYTES) :
    [FDS_DISK_INFO_BLOCK] ++ FDS_MAGIC_BYTES ++ [byteAt F 15] ++ slice F 16 19 ++
    [byteAt F 19, byteAt F 20, byteAt F 21, byteAt F 22, byteAt F 23, byteAt F 24,
     byteAt F 25, byteAt F 26, byteAt F 27, byteAt F 28, byteAt F 29, byteAt F 30] ++
    slice F 31 34 ++
    [byteAt F 34, byteAt F 35, byteAt F 36, byteAt F 37, byteAt F 38, byteAt F 39,
     byteAt F 40, byteAt F 41, byteAt F 42, byteAt F 43] ++
    slice F 44 47 ++ [byteAt F 47, byteAt F 48] ++
    putU16 (le16 (byteAt F 49) (byteAt F 50)) ++
    [byteAt F 51, byteAt F 52, byteAt F 53, byteAt F 54, byteAt F 55] = slice F 0 56 := by
  rw [putU16_le16 _ _ (byteAt_lt F hvals 49) (byteAt_lt F hvals 50)]
  rw [slice_split F 0 1 56 (by omega) (by omega),
    slice_split F 1 15 56 (by omega) (by omega),
    slice_split F 15 16 56 (by omega) (by omega),
    slice_split F 16 19 56 (by omega) (by omega),
    slice_split F 19 20 56 (by omega) (by omega),
    slice_split F 20 21 56 (by omega) (by omega),
    slice_split F 21 22 56 (by omega) (by omega),
    slice_split F 22 23 56 (by omega) (by omega),
    slice_split F 23 24 56 (by omega) (by omega),
    slice_split F 24 25 56 (by omega) (by omega),
    slice_split F 25 26 56 (by omega) (by omega),
    slice_split F 26 27 56 (by omega) (by omega),
    slice_split F 27 28 56 (by omega) (by omega),
    slice_split F 28 29 56 (by omega) (by omega),
    slice_split F 29 30 56 (by omega) (by omega),
    slice_split F 30 31 56 (by omega) (by omega),
    slice_split F 31 34 56 (by omega) (by omega),
    slice_split F 34 35 56 (by omega) (by omega),
    slice_split F 35 36 56 (by omega) (by omega),
    slice_split F 36 37 56 (by omega) (by omega),
    slice_split F 37 38 56 (by omega) (by omega),
    slice_split F 38 39 56 (by omega) (by omega),
    slice_split F 39 40 56 (by omega) (by omega),
    slice_split F 40 41 56 (by omega) (by omega),
    slice_split F 41 42 56 (by omega) (by omega),
    slice_split F 42 43 56 (by omega) (by omega),
    slice_split F 43 44 56 (by omega) (by omega),
    slice_split F 44 47 56 (by omega) (by omega),
    slice_split F 47 48 56 (by omega) (by omega),
    slice_split F 48 49 56 (by omega) (by omega),
    slice_split F 49 50 56 (by omega) (by omega),
    slice_split F 50 51 56 (by omega) (by omega),
    slice_split F 51 52 56 (by omega) (by omega),
    slice_split F 52 53 56 (by omega) (by omega),
    slice_split F 53 54 56 (by omega) (by omega),
    slice_split F 54 55 56 (by omega) (by omega)]
  rw [slice_one F 0 1 rfl (by omega),
    slice_one F 15 16 rfl (by omega),
    slice_one F 19 20 rfl (by omega),
    slice_one F 20 21 rfl (by omega),
    slice_one F 21 22 rfl (by omega),
    slice_one F 22 23 rfl (by omega),
    slice_one F 23 24 rfl (by omega),
    slice_one F 24 25 rfl (by omega),
    slice_one F 25 26 rfl (by omega),
    slice_one F 26 27 rfl (by omega),
    slice_one F 27 28 rfl (by omega),
    slice_one F 28 29 rfl (by omega),
    slice_one F 29 30 rfl (by omega),
    slice_one F 30 31 rfl (by omega),
    slice_one F 34 35 rfl (by omega),
    slice_one F 35 36 rfl (by omega),
    slice_one F 36 37 rfl (by omega),
    slice_one F 37 38 rfl (by omega),
    slice_one F 38 39 rfl (by omega),
    slice_one F 39 40 rfl (by omega),
    slice_one F 40 41 rfl (by omega),
    slice_one F 41 42 rfl (by omega),
    slice_one F 42 43 rfl (by omega),
    slice_one F 43 44 rfl (by omega),
    slice_one F 47 48 rfl (by omega),
    slice_one F 48 49 rfl (by omega),
    slice_one F 49 50 rfl (by omega),
    slice_one F 50 51 rfl (by omega),
    slice_one F 51 52 rfl (by omega),
    slice_one F 52 53 rfl (by omega),
    slice_one F 53 54 rfl (by omega),
    slice_one F 54 55 rfl (by omega),
    slice_one F 55 56 rfl (by omega)]
  rw [hb0, hmagic]
  simp [FDS_DISK_INFO_BLOCK]

end NESTool

namespace NESTool

set_option maxHeartbeats 2000000 in
/-- C7 amended: a 65500-byte FDS side of byte values whose info block starts
with the info-block marker and carries the intact FDS magic, whose checksum
detection finds no stored checksums (the two bytes at 0x38 are not the
info-block CRC with a 1 behind them; the layout marker 2 at 0x38 rules out
the all-zero form), and whose file region is well formed, decodes
successfully and re-encodes byte-identically — the captured unallocated
tail lands at its original offset.  The FDS 65500-byte variant only: the
QD counterexample shows bytes past 65500 of a 65536-byte side are lost. -/
theorem fdsSide_decode_encode (H : HashModel) (g : Bool) (F : List Nat)
    (hlen : F.length = 65500)
    (hvals : ∀ x ∈ F, x < 256)
    (hb0 : byteAt F 0 = 1)
    (hmagic : slice F 1 15 = FDS_MAGIC_BYTES)
    (hnocrc : ¬(le16 (byteAt F 56) (byteAt F 57) =
      fdsBlockCrc (slice F 0 56 ++ [0, 0]) ∧ byteAt F 58 = 1))
    (hlayout : byteAt F 56 = 2)
    (hwf : filesWF F (byteAt F 57) 58 = true) :
    ∃ side, DecodeFDSSide H F g = .ok side ∧ EncodeFDSSide side false g false = .ok F := by
  have hlen' : 65500 ≤ F.length := by omega
  obtain ⟨files, endIdx, hdec, hencfs, hge, hle, hcnt⟩ :=
    decodeFDSFiles_roundtrip H F g hlen' hvals (byteAt F 57) 58 hwf (by omega)
  have hno2 : ¬(byteAt F 56 = 0 ∧ byteAt F 57 = 0 ∧ byteAt F 58 = 1) := by
    intro hc
    rw [hlayout] at hc
    exact absurd hc.1 (by norm_num)
  have hnocrc' : ¬(le16 2 (byteAt F 57) =
      fdsBlockCrc (slice F 0 56 ++ [0, 0]) ∧ byteAt F 58 = 1) := by
    rw [← hlayout]
    exact hnocrc
  have hci : GenerateFDSBlockCRC (slice F 0 56 ++ [0, 0]) =
      .ok (fdsBlockCrc (slice F 0 56 ++ [0, 0])) :=
    GenerateFDSBlockCRC_ok _ (by
      rw [List.length_append, slice_length F 0 56 (by omega) (by omega)]
      norm_num)
  have hcrcft : GenerateFDSBlockCRC [byteAt F 56, byteAt F 57, 0, 0] =
      .ok (fdsBlockCrc [byteAt F 56, byteAt F 57, 0, 0]) :=
    GenerateFDSBlockCRC_ok _ (by simp)
  have hcrcft2 : GenerateFDSBlockCRC [2, byteAt F 57, 0, 0] =
      .ok (fdsBlockCrc [2, byteAt F 57, 0, 0]) :=
    GenerateFDSBlockCRC_ok _ (by simp)
  have hlay : slice F 56 58 = [byteAt F 56, byteAt F 57] := by
    rw [slice_split F 56 57 58 (by omega) (by omega), slice_one F 56 57 rfl (by omega),
      slice_one F 57 58 rfl (by omega)]
    rfl
  rcases Nat.lt_or_ge endIdx 65500 with htail | htail
  · have hts : sliceE F endIdx FDS_SIDE_SIZE = .ok (slice F endIdx 65500) := by
      unfold FDS_SIDE_SIZE
      exact sliceE_ok F _ _ ⟨by omega, by omega⟩
    cases g
    · simp [DecodeFDSSide, getE, sliceE, guardE, bind, Except.bind, pure, Except.pure,
        hlen, hb0, if_neg hnocrc', if_neg hno2, hlayout, hci, hcrcft, hdec, hts,
        FDS_DISK_INFO_BLOCK, FDS_DISK_FILE_LAYOUT_BLOCK, FDS_SIDE_SIZE, htail,
        Nat.le_of_lt htail]
      simp only [EncodeFDSSide, fdsInfoSlice, Bool.false_eq_true, if_false, bind, Except.bind,
        pure, Except.pure, hencfs]
      rw [fds_info_eq F hlen' hvals hb0 hmagic]
      have hl2 : ([FDS_DISK_FILE_LAYOUT_BLOCK, files.length % 256] : List Nat) =
          slice F 56 58 := by
        rw [hlay, hcnt, Nat.mod_eq_of_lt (byteAt_lt F hvals 57), hlayout]
        rfl
      rw [hl2, slice_append F 0 56 58 (by omega) (by omega),
        slice_append F 0 58 endIdx (by omega) hge]
      have hslen : (slice F 0 endIdx).length = endIdx :=
        slice_length F 0 endIdx (by omega) (by omega)
      simp only [hslen, Nat.mod_eq_of_lt (show endIdx < 65536 by omega), lt_irrefl, if_false]
      rw [slice_append F 0 endIdx 65500 (by omega) (Nat.le_of_lt htail),
        slice_all F 65500 (by omega)]
      simp [hlen, FDS_SIDE_SIZE, QD_SIDE_SIZE]
    · simp [DecodeFDSSide, getE, sliceE, guardE, bind, Except.bind, pure, Except.pure,
        hlen, hb0, if_neg hnocrc', if_neg hno2, hlayout, hci, hcrcft2, hdec, hts,
        FDS_DISK_INFO_BLOCK, FDS_DISK_FILE_LAYOUT_BLOCK, FDS_SIDE_SIZE, htail,
        Nat.le_of_lt htail]
      simp only [EncodeFDSSide, fdsInfoSlice, Bool.false_eq_true, if_false, bind, Except.bind,
        pure, Except.pure, hencfs]
      rw [fds_info_eq F hlen' hvals hb0 hmagic]
      have hl2 : ([FDS_DISK_FILE_LAYOUT_BLOCK, files.length % 256] : List Nat) =
          slice F 56 58 := by
        rw [hlay, hcnt, Nat.mod_eq_of_lt (byteAt_lt F hvals 57), hlayout]
        rfl
      rw [hl2, slice_append F 0 56 58 (by omega) (by omega),
        slice_append F 0 58 endIdx (by omega) hge]
      have hslen : (slice F 0 endIdx).length = endIdx :=
        slice_length F 0 endIdx (by omega) (by omega)
      simp only [hslen, Nat.mod_eq_of_lt (show endIdx < 65536 by omega), lt_irrefl, if_false]
      rw [slice_append F 0 endIdx 65500 (by omega) (Nat.le_of_lt htail),
        slice_all F 65500 (by omega)]
      simp [hlen, FDS_SIDE_SIZE, QD_SIDE_SIZE]
  · have he : endIdx = 65500 := by omega
    subst he
    cases g
    · simp [DecodeFDSSide, getE, sliceE, guardE, bind, Except.bind, pure, Except.pure,
        hlen, hb0, if_neg hnocrc', if_neg hno2, hlayout, hci, hcrcft, hdec,
        FDS_DISK_INFO_BLOCK, FDS_DISK_FILE_LAYOUT_BLOCK, FDS_SIDE_SIZE]
      simp only [EncodeFDSSide, fdsInfoSlice, Bool.false_eq_true, if_false, bind, Except.bind,
        pure, Except.pure, hencfs]
      rw [fds_info_eq F hlen' hvals hb0 hmagic]
      have hl2 : ([FDS_DISK_FILE_LAYOUT_BLOCK, files.length % 256] : List Nat) =
          slice F 56 58 := by
        rw [hlay, hcnt, Nat.mod_eq_of_lt (byteAt_lt F hvals 57), hlayout]
        rfl
      rw [hl2, slice_append F 0 56 58 (by omega) (by omega),
        slice_append F 0 58 65500 (by omega) hge, slice_all F 65500 (by omega)]
      simp [hlen, FDS_SIDE_SIZE, QD_SIDE_SIZE]
    · simp [DecodeFDSSide, getE, sliceE, guardE, bind, Except.bind, pure, Except.pure,
        hlen, hb0, if_neg hnocrc', if_neg hno2, hlayout, hci, hcrcft2, hdec,
        FDS_DISK_INFO_BLOCK, FDS_DISK_FILE_LAYOUT_BLOCK, FDS_SIDE_SIZE]
      simp only [EncodeFDSSide, fdsInfoSlice, Bool.false_eq_true, if_false, bind, Except.bind,
        pure, Except.pure, hencfs]
      rw [fds_info_eq F hlen' hvals hb0 hmagic]
      have hl2 : ([FDS_DISK_FILE_LAYOUT_BLOCK, files.length % 256] : List Nat) =
          slice F 56 58 := by
        rw [hlay, hcnt, Nat.mod_eq_of_lt (byteAt_lt F hvals 57), hlayout]
        rfl
      rw [hl2, slice_append F 0 56 58 (by omega) (by omega),
        slice_append F 0 58 65500 (by omega) hge, slice_all F 65500 (by omega)]
      simp [hlen, FDS_SIDE_SIZE, QD_SIDE_SIZE]

end NESTool

namespace NESTool

/-- The 58-byte checksum-free start of a disk side with no files: info-block
marker, the FDS magic, zeroed metadata, then the layout block declaring zero
files. -/
def c7Prefix : List Nat :=
  [1, 42, 78, 73, 78, 84, 69, 78, 68, 79, 45, 72, 86, 67, 42,
   0, 0, 0, 0, 0, 0, 0, 0, 0, 0, 0, 0, 0, 0, 0, 0,
   0, 0, 0, 0, 0, 0, 0, 0, 0, 0, 0, 0, 0, 0, 0, 0,
   0, 0, 0, 0, 0, 0, 0, 0, 0, 2, 0]

/-- A 65500-byte FDS side: the prefix above and an all-zero unallocated
tail. -/
def c7WitnessFile : List Nat := c7Prefix ++ List.replicate 65442 0

theorem c7WitnessFile_length : c7WitnessFile.length = 65500 := by
  unfold c7WitnessFile
  rw [List.length_append, List.length_replicate]
  decide

theorem c7WitnessFile_vals : ∀ x ∈ c7WitnessFile, x < 256 := by
  intro x hx
  unfold c7WitnessFile at hx
  rcases List.mem_append.mp hx with h | h
  · have hall : ∀ y ∈ c7Prefix, y < 256 := by decide
    exact hall x h
  · rw [List.eq_of_mem_replicate h]
    decide

/-- Witness for fdsSide_decode_encode on the concrete side above. -/
theorem fdsSide_decode_encode_witness :
    (c7WitnessFile.length = 65500 ∧
      byteAt c7WitnessFile 0 = 1 ∧
      slice c7WitnessFile 1 15 = FDS_MAGIC_BYTES ∧
      byteAt c7WitnessFile 56 = 2 ∧
      filesWF c7WitnessFile (byteAt c7WitnessFile 57) 58 = true) ∧
    ∃ side, DecodeFDSSide defaultHashes c7WitnessFile false = .ok side ∧
      EncodeFDSSide side false false false = .ok c7WitnessFile :=
  ⟨⟨c7WitnessFile_length, by decide, by decide, by decide, by decide⟩,
    fdsSide_decode_encode defaultHashes false c7WitnessFile c7WitnessFile_length
      c7WitnessFile_vals (by decide) (by decide)
      (fun h => absurd h.2 (by decide)) (by decide) (by decide)⟩

end NESTool

namespace NESTool

/-- A 65536-byte QD side: the same checksum-free zero-file prefix, an
all-zero region, a 7 at offset 65510 — beyond the 65500-byte FDS span —
and zeros to the end. -/
def qdTailFile : List Nat :=
  c7Prefix ++ List.replicate 65452 0 ++ [7] ++ List.replicate 25 0

theorem qdTailFile_length : qdTailFile.length = 65536 := by
  unfold qdTailFile
  rw [List.length_append, List.length_append, List.length_append, List.length_replicate,
    List.length_replicate]
  decide

/-- The bytes EncodeFDSSide emits for a decoded zero-file QD side: the
re-encoded 58-byte head, the captured tail, and zero padding to 65536. -/
def qdOut (F : List Nat) : List Nat :=
  c7Prefix ++ (slice F 58 65500 ++ List.replicate 36 0)

theorem qdUnalloc_length : (slice qdTailFile 58 65500).length = 65442 :=
  slice_length qdTailFile 58 65500 (by rw [qdTailFile_length]; omega) (by omega)

end NESTool

namespace NESTool

/-- The FDSSide record DecodeFDSSide returns on a checksum-free zero-file
65536-byte QD side (a proof artifact). -/
def qdSideOf (F : List Nat) : FDSSide :=
  { ManufacturerCode := 0
    FDSGameName := [0, 0, 0]
    ManufacturingDate := [0, 0, 0]
    RewriteDate := [0, 0, 0]
    SideFiles := []
    UnallocatedSpace := slice F 58 65500
    UnallocatedSpaceOffset := 58 }

set_option maxHeartbeats 2000000 in
theorem qdSide_decode (F : List Nat) (hqlen : F.length = 65536)
    (hb0 : byteAt F 0 = 1) (hb56 : byteAt F 56 = 2) (hb57 : byteAt F 57 = 0)
    (hnocrc : ¬((2 : Nat) = fdsBlockCrc (slice F 0 56 ++ [0, 0]) ∧ byteAt F 58 = 1))
    (hz : ∀ i < 56, 15 ≤ i → byteAt F i = 0)
    (hgn : slice F 16 19 = [0, 0, 0]) (hmd : slice F 31 34 = [0, 0, 0])
    (hrd : slice F 44 47 = [0, 0, 0]) :
    DecodeFDSSide defaultHashes F false = .ok (qdSideOf F) := by
  have hciq : GenerateFDSBlockCRC (slice F 0 56 ++ [0, 0]) =
      .ok (fdsBlockCrc (slice F 0 56 ++ [0, 0])) :=
    GenerateFDSBlockCRC_ok _ (by
      rw [List.length_append, slice_length F 0 56 (by omega) (by omega)]
      norm_num)
  have hdec0 : decodeFDSFiles defaultHashes F 0 false false 0 58 = .ok ([], 58) := rfl
  have hts : sliceE F 58 65500 = .ok (slice F 58 65500) :=
    sliceE_ok F 58 65500 ⟨by omega, by omega⟩
  simp [DecodeFDSSide, getE, sliceE, guardE, bind, Except.bind, pure, Except.pure,
    hqlen, hb0, hb56, hb57, if_neg hnocrc, hciq, hdec0, hts, hz, hgn, hmd, hrd,
    FDS_DISK_INFO_BLOCK, FDS_DISK_FILE_LAYOUT_BLOCK, FDS_SIDE_SIZE, le16]
  rfl

theorem qdTailFile_decodes : DecodeFDSSide defaultHashes qdTailFile false =
    .ok (qdSideOf qdTailFile) :=
  qdSide_decode qdTailFile qdTailFile_length (by decide) (by decide) (by decide)
    (fun h => absurd h.2 (by decide)) (by decide) (by decide) (by decide) (by decide)

end NESTool

namespace NESTool

theorem c7Prefix_length : c7Prefix.length = 58 := by decide

theorem qdSide_encode (F : List Nat) (hqlen : F.length = 65536) :
    EncodeFDSSide (qdSideOf F) false false true = .ok (qdOut F) := by
  have hul : (slice F 58 65500).length = 65442 := slice_length F 58 65500 (by omega) (by omega)
  simp [EncodeFDSSide, qdSideOf, fdsInfoSlice, putU16, encodeFDSFilesBytes, bind, Except.bind,
    pure, Except.pure, QD_SIDE_SIZE, FDS_SIDE_SIZE, FDS_DISK_INFO_BLOCK,
    FDS_DISK_FILE_LAYOUT_BLOCK, FDS_MAGIC_BYTES, hul, qdOut, c7Prefix]

end NESTool

namespace NESTool

theorem qdOut_byte : byteAt (qdOut qdTailFile) 65510 = 0 := by
  unfold byteAt qdOut
  rw [List.getD_append_right _ _ _ _ (by rw [c7Prefix_length]; omega), c7Prefix_length,
    List.getD_append_right _ _ _ _ (by rw [qdUnalloc_length]; omega), qdUnalloc_length]
  decide

theorem qdTailFile_byte : byteAt qdTailFile 65510 = 7 := by
  have hpl : (c7Prefix ++ List.replicate 65452 0).length = 65510 := by
    rw [List.length_append, List.length_replicate, c7Prefix_length]
  have hpl2 : ((c7Prefix ++ List.replicate 65452 0) ++ [7]).length = 65511 := by
    rw [List.length_append, hpl]
    decide
  unfold byteAt qdTailFile
  rw [show c7Prefix ++ List.replicate 65452 0 ++ [7] ++ List.replicate 25 0 =
    ((c7Prefix ++ List.replicate 65452 0) ++ [7]) ++ List.replicate 25 0 from rfl]
  rw [List.getD_append _ _ _ _ (by rw [hpl2]; omega),
    List.getD_append_right _ _ _ _ (by rw [hpl]), hpl]
  decide

/-- C7, claim as stated, fails for QD sides: this 65536-byte QD side
decodes successfully, but DecodeFDSSide captures the unallocated tail only
up to byte 65500, so re-encoding with QD sizing pads zeros past that point
and the 7 the input carries at offset 65510 is lost — the emitted side is
not byte-identical to the input. -/
theorem fdsSide_qd_tail_lost :
    DecodeFDSSide defaultHashes qdTailFile false = .ok (qdSideOf qdTailFile) ∧
    EncodeFDSSide (qdSideOf qdTailFile) false false true = .ok (qdOut qdTailFile) ∧
    byteAt (qdOut qdTailFile) 65510 = 0 ∧ byteAt qdTailFile 65510 = 7 ∧
    qdOut qdTailFile ≠ qdTailFile := by
  refine ⟨qdTailFile_decodes, qdSide_encode qdTailFile qdTailFile_length, qdOut_byte,
    qdTailFile_byte, fun h => ?_⟩
  have h0 := qdOut_byte
  rw [h, qdTailFile_byte] at h0
  exact absurd h0 (by decide)

end NESTool
